import Mathlib

/-!
Shallow embedding of the betting module of the `betfair` Go client library
(`betting.go`, plus an earlier revision of the same file), together with a
model of Go's `encoding/json` marshalling/unmarshalling behaviour on the
struct types the module declares.

Modelling conventions:
* A JSON document is the inductive `Json` below.
* Go `string` is `String`; Go `int` is `Int`; Go `uint32` is `Nat`;
  Go `float32` is modelled by `Rat` (every finite float32 is a rational;
  non-finite values do not marshal and are outside the model).
* `time.Time` is modelled by `GoTime`, a wrapper around its RFC 3339
  rendering, which is exactly what its JSON marshaller emits.
* A Go pointer `*T` is `Option T` (`none` = nil); a Go slice `[]T` is
  `List T`, conflating the nil slice with the empty slice (Go's
  `omitempty` treats both as empty, and unmarshalling accepts both
  `null` and `[]`); a Go `map[string]string` is an association list.
* `json.Marshal` of a struct emits the fields in declaration order under
  their tag names (or the Go field name when there is no tag), skipping a
  field tagged `omitempty` whose value is empty (zero number, empty
  string, empty slice/map, nil pointer).  Struct-valued fields are never
  empty in Go, so `omitempty` never skips them.
* `json.Unmarshal` of an object into a struct matches keys to fields
  (exact name first, then ASCII-case-insensitively), later duplicate keys
  overwriting earlier ones; missing fields keep the zero value; `null`
  leaves a non-pointer field at its zero value and sets a pointer to nil.
  Go's type-specific error messages are flattened to single error values.
-/

namespace Betfair

/-- A JSON document, as produced/consumed by Go's `encoding/json`. -/
inductive Json where
  | null : Json
  | bool : Bool → Json
  | num : Rat → Json
  | str : String → Json
  | arr : List Json → Json
  | obj : List (String × Json) → Json
deriving Repr

/-- The top-level keys of a JSON document (empty unless it is an object). -/
def Json.keys : Json → List String
  | .obj kvs => kvs.map (·.1)
  | _ => []

/-- A Go `error` value, flattened to its message. -/
structure GoError where
  msg : String
deriving Repr, DecidableEq

/-- `time.Time`, modelled by its RFC 3339 rendering (what its JSON
marshaller emits). -/
structure GoTime where
  rfc3339 : String
deriving Repr, DecidableEq

/-- The zero `time.Time`, which renders as "0001-01-01T00:00:00Z". -/
def GoTime.zero : GoTime := ⟨"0001-01-01T00:00:00Z"⟩

/-! ### Enumerated string types (betting.go lines 36-133)

In the Go source these are string type aliases; constants of these types
are plain string literals and marshal as JSON strings of themselves. -/

def baseEnumVal := String
abbrev OrderProjVal := String
abbrev MarketProjVal := String
abbrev MatchProjVal := String
abbrev PriceDataVal := String
abbrev RunnerStatusVal := String
abbrev OrderTypeVal := String
abbrev OrderStatusVal := String
abbrev PersistenceTypeVal := String
abbrev SideVal := String

/-- JSON marshalling of any of the enumerated string values. -/
def marshalEnumVal (v : String) : Json := Json.str v

def SideBack : SideVal := "BACK"
def SideLay : SideVal := "LAY"

def OrderProjectionAll : OrderProjVal := "ALL"
def OrderProjectionExecutable : OrderProjVal := "EXECUTABLE"
def OrderProjectionExecutionComplete : OrderProjVal := "EXECUTION_COMPLETE"

def OrderStatusExecutionComplete : OrderStatusVal := OrderProjectionExecutionComplete
def OrderStatusExecutable : OrderStatusVal := OrderProjectionExecutable

def MatchProjectionNoRollup : MatchProjVal := "NO_ROLLUP"
def MatchProjectionRolledUpByPrice : MatchProjVal := "ROLLED_UP_BY_PRICE"
def MatchProjectionRolledUpByAvgPrice : MatchProjVal := "ROLLED_UP_BY_AVG_PRICE"

def MarketProjectionCompetition : MarketProjVal := "COMPETITION"
def MarketProjectionEvent : MarketProjVal := "EVENT"
def MarketProjectionEventType : MarketProjVal := "EVENT_TYPE"
def MarketProjectionMarketStartTime : MarketProjVal := "MARKET_START_TIME"
def MarketProjectionMarketDescription : MarketProjVal := "MARKET_DESCRIPTION"
def MarketProjectionRunnerDescription : MarketProjVal := "RUNNER_DESCRIPTION"
def MarketProjectionRunnerMetadata : MarketProjVal := "RUNNER_METADATA"

def PriceDataSPAvailable : PriceDataVal := "SP_AVAILABLE"
def PriceDataSPTraded : PriceDataVal := "SP_TRADED"
def PriceDataEXBestOffers : PriceDataVal := "EX_BEST_OFFERS"
def PriceDataEXAllOffers : PriceDataVal := "EX_ALL_OFFERS"
def PriceDataEXTraded : PriceDataVal := "EX_TRADED"

def RunnerStatusActive : RunnerStatusVal := "ACTIVE"
def RunnerStatusWinner : RunnerStatusVal := "WINNER"
def RunnerStatusLoser : RunnerStatusVal := "LOSER"
def RunnerStatusRemovedVacant : RunnerStatusVal := "REMOVED_VACANT"
def RunnerStatusRemoved : RunnerStatusVal := "REMOVED"
def RunnerStatusHidden : RunnerStatusVal := "HIDDEN"

def PersistenceTypeLapse : PersistenceTypeVal := "LAPSE"
def PersistenceTypePersist : PersistenceTypeVal := "PERSIST"
def PersistenceTypeMarketOnClose : PersistenceTypeVal := "MARKET_ON_CLOSE"

def OrderTypeLimit : OrderTypeVal := "LIMIT"
def OrderTypeLimitOnClose : OrderTypeVal := "LIMIT_ON_CLOSE"
def OrderTypeMarketOnClose : OrderTypeVal := "MARKET_ON_CLOSE"

/-! ### Marshalling helpers: one field of a struct

Each helper produces the (zero- or one-element) list of key/value pairs
that `json.Marshal` emits for one struct field. -/

/-- Field with `omitempty` of string (or string-alias) type. -/
def omitemptyStr (key : String) (v : String) : List (String × Json) :=
  if v = "" then [] else [(key, Json.str v)]

/-- Field with `omitempty` of slice type (already element-marshalled). -/
def omitemptyArr (key : String) (vs : List Json) : List (String × Json) :=
  match vs with
  | [] => []
  | _ => [(key, Json.arr vs)]

/-- Field with `omitempty` of Go `int` type. -/
def omitemptyInt (key : String) (v : Int) : List (String × Json) :=
  if v = 0 then [] else [(key, Json.num (v : Rat))]

/-- Field with `omitempty` of `float32` type. -/
def omitemptyFloat (key : String) (v : Rat) : List (String × Json) :=
  if v = 0 then [] else [(key, Json.num v)]

/-- Field with `omitempty` of Go `uint32` type. -/
def omitemptyUInt (key : String) (v : Nat) : List (String × Json) :=
  if v = 0 then [] else [(key, Json.num (v : Rat))]

/-- Field with `omitempty` of pointer type. -/
def omitemptyPtr (key : String) (enc : α → Json) (v : Option α) :
    List (String × Json) :=
  match v with
  | none => []
  | some x => [(key, enc x)]

/-- `omitempty` on a struct-typed field: Go never considers a struct
empty, so the field is always emitted. -/
def omitemptyStruct (key : String) (j : Json) : List (String × Json) :=
  [(key, j)]

/-- A field with no `omitempty` (or no tag at all): always emitted. -/
def plainField (key : String) (j : Json) : List (String × Json) :=
  [(key, j)]

/-- `time.Time` marshals as the RFC 3339 string. -/
def GoTime.marshal (t : GoTime) : Json := Json.str t.rfc3339

/-! ### Request-side structs (betting.go lines 135-180) -/

/-- `MarketFilter` (betting.go lines 144-154). -/
structure MarketFilter where
  TextQuery : String := ""
  ExchangeIds : List String := []
  EventTypeIds : List String := []
  EventIds : List String := []
  CompetitionIds : List String := []
  MarketCountries : List String := []
  MarketIds : List String := []
  MarketTypeCodes : List String := []
deriving Repr, DecidableEq

/-- `json.Marshal` of `MarketFilter`: every field is tagged `omitempty`. -/
def MarketFilter.marshal (f : MarketFilter) : Json :=
  Json.obj
    (omitemptyStr "textQuery" f.TextQuery
      ++ omitemptyArr "exchangeIds" (f.ExchangeIds.map Json.str)
      ++ omitemptyArr "eventTypeIds" (f.EventTypeIds.map Json.str)
      ++ omitemptyArr "eventIds" (f.EventIds.map Json.str)
      ++ omitemptyArr "competitionIds" (f.CompetitionIds.map Json.str)
      ++ omitemptyArr "marketCountries" (f.MarketCountries.map Json.str)
      ++ omitemptyArr "marketIds" (f.MarketIds.map Json.str)
      ++ omitemptyArr "marketTypeCodes" (f.MarketTypeCodes.map Json.str))

/-- `PriceProjection` (betting.go lines 156-159). -/
structure PriceProjection where
  PriceData : List PriceDataVal := []
deriving Repr, DecidableEq

/-- `json.Marshal` of `PriceProjection`. -/
def PriceProjection.marshal (p : PriceProjection) : Json :=
  Json.obj (omitemptyArr "priceData" (p.PriceData.map marshalEnumVal))

/-- `ProjectionParams` (betting.go lines 135-142). -/
structure ProjectionParams where
  MarketProjection : List MarketProjVal := []
  PriceProjection : Option PriceProjection := none
  OrderProjection : OrderProjVal := ""
  MatchProjection : MatchProjVal := ""
deriving Repr, DecidableEq

/-- `Params`, the shared request envelope (betting.go lines 161-171). -/
structure Params where
  MarketFilter : Option MarketFilter := none
  MarketIds : List String := []
  PriceProjection : Option PriceProjection := none
  MarketProjection : List MarketProjVal := []
  OrderProjection : OrderProjVal := ""
  MatchProjection : MatchProjVal := ""
  MaxResults : Int := 0
  Locale : String := ""
deriving Repr, DecidableEq

/-- `json.Marshal` of `Params`: fields in declaration order under their
wire tags, all `omitempty`. -/
def Params.marshal (p : Params) : Json :=
  Json.obj
    (omitemptyPtr "filter" MarketFilter.marshal p.MarketFilter
      ++ omitemptyArr "marketIds" (p.MarketIds.map Json.str)
      ++ omitemptyPtr "priceProjection" PriceProjection.marshal p.PriceProjection
      ++ omitemptyArr "marketProjection" (p.MarketProjection.map marshalEnumVal)
      ++ omitemptyStr "orderProjection" p.OrderProjection
      ++ omitemptyStr "matchProjection" p.MatchProjection
      ++ omitemptyInt "maxResults" p.MaxResults
      ++ omitemptyStr "locale" p.Locale)

/-- `(*Params).SetProjections` (betting.go lines 175-180): the pointer
receiver mutation is modelled as a functional update. -/
def Params.SetProjections (p : Params) (params : ProjectionParams) : Params :=
  { p with
    PriceProjection := params.PriceProjection
    MarketProjection := params.MarketProjection
    OrderProjection := params.OrderProjection
    MatchProjection := params.MatchProjection }

/-! ### Result-side structs (betting.go lines 182-356)

None of the result structs carry json tags except the nested `Runner`,
`Match`, `PriceSize`, `StartingPrices` and `ExchangePrices`; untagged
fields marshal under the Go field name and are never omitted. -/

/-- `EventType` (betting.go lines 183-186). -/
structure EventType where
  ID : String := ""
  Name : String := ""
deriving Repr, DecidableEq

def EventType.marshal (e : EventType) : Json :=
  Json.obj (plainField "ID" (Json.str e.ID) ++ plainField "Name" (Json.str e.Name))

/-- `EventTypeResult` (betting.go lines 189-192). -/
structure EventTypeResult where
  EventType : Option EventType := none
  MarketCount : Int := 0
deriving Repr, DecidableEq

/-- A nil pointer marshals as `null`, a non-nil one as its target. -/
def encPtr (enc : α → Json) : Option α → Json
  | none => Json.null
  | some x => enc x

/-- A pointer field without `omitempty`: always emitted. -/
def ptrField (key : String) (enc : α → Json) (v : Option α) :
    List (String × Json) :=
  [(key, encPtr enc v)]

def EventTypeResult.marshal (r : EventTypeResult) : Json :=
  Json.obj
    (ptrField "EventType" EventType.marshal r.EventType
      ++ plainField "MarketCount" (Json.num (r.MarketCount : Rat)))

/-- `Competition` (betting.go lines 194-197). -/
structure Competition where
  Id : String := ""
  Name : String := ""
deriving Repr, DecidableEq

def Competition.marshal (c : Competition) : Json :=
  Json.obj (plainField "Id" (Json.str c.Id) ++ plainField "Name" (Json.str c.Name))

/-- `CompetitionResult` (betting.go lines 199-203). -/
structure CompetitionResult where
  Competition : Option Competition := none
  MarketCount : Int := 0
  CompetitionRegion : String := ""
deriving Repr, DecidableEq

def CompetitionResult.marshal (r : CompetitionResult) : Json :=
  Json.obj
    (ptrField "Competition" Competition.marshal r.Competition
      ++ plainField "MarketCount" (Json.num (r.MarketCount : Rat))
      ++ plainField "CompetitionRegion" (Json.str r.CompetitionRegion))

/-- `CountryCodeResult` (betting.go lines 205-208). -/
structure CountryCodeResult where
  CountryCode : String := ""
  MarketCount : Int := 0
deriving Repr, DecidableEq

def CountryCodeResult.marshal (r : CountryCodeResult) : Json :=
  Json.obj
    (plainField "CountryCode" (Json.str r.CountryCode)
      ++ plainField "MarketCount" (Json.num (r.MarketCount : Rat)))

/-- `Event` (betting.go lines 210-217). -/
structure Event where
  Id : String := ""
  Name : String := ""
  CountryCode : String := ""
  Timezone : String := ""
  Venue : String := ""
  OpenDate : GoTime := GoTime.zero
deriving Repr, DecidableEq

def Event.marshal (e : Event) : Json :=
  Json.obj
    (plainField "Id" (Json.str e.Id)
      ++ plainField "Name" (Json.str e.Name)
      ++ plainField "CountryCode" (Json.str e.CountryCode)
      ++ plainField "Timezone" (Json.str e.Timezone)
      ++ plainField "Venue" (Json.str e.Venue)
      ++ plainField "OpenDate" e.OpenDate.marshal)

/-- `EventResult` (betting.go lines 219-222). -/
structure EventResult where
  Event : Option Event := none
  MarketCount : Int := 0
deriving Repr, DecidableEq

def EventResult.marshal (r : EventResult) : Json :=
  Json.obj
    (ptrField "Event" Event.marshal r.Event
      ++ plainField "MarketCount" (Json.num (r.MarketCount : Rat)))

/-- `PriceSize` (betting.go lines 225-228). -/
structure PriceSize where
  Price : Rat := 0
  Size : Rat := 0
deriving Repr, DecidableEq

def PriceSize.marshal (p : PriceSize) : Json :=
  Json.obj (omitemptyFloat "price" p.Price ++ omitemptyFloat "size" p.Size)

/-- `StartingPrices` (betting.go lines 231-237). -/
structure StartingPrices where
  NearPrice : Rat := 0
  FarPrice : Rat := 0
  BackStakeTaken : List PriceSize := []
  LayLiabilityTaken : List PriceSize := []
  ActualSP : Rat := 0
deriving Repr, DecidableEq

def StartingPrices.marshal (s : StartingPrices) : Json :=
  Json.obj
    (omitemptyFloat "nearPrice" s.NearPrice
      ++ omitemptyFloat "farPrice" s.FarPrice
      ++ omitemptyArr "backStakeTaken" (s.BackStakeTaken.map PriceSize.marshal)
      ++ omitemptyArr "layLiabilityTaken" (s.LayLiabilityTaken.map PriceSize.marshal)
      ++ omitemptyFloat "actualSP" s.ActualSP)

/-- `ExchangePrices` (betting.go lines 240-244); note the third tag is
spelled `TradedVolume` with a capital T in the source. -/
structure ExchangePrices where
  AvailableToBack : List PriceSize := []
  AvailableToLay : List PriceSize := []
  TradedVolume : List PriceSize := []
deriving Repr, DecidableEq

def ExchangePrices.marshal (e : ExchangePrices) : Json :=
  Json.obj
    (omitemptyArr "availableToBack" (e.AvailableToBack.map PriceSize.marshal)
      ++ omitemptyArr "availableToLay" (e.AvailableToLay.map PriceSize.marshal)
      ++ omitemptyArr "TradedVolume" (e.TradedVolume.map PriceSize.marshal))

/-- `Order` (betting.go lines 247-263): untagged. -/
structure Order where
  BetId : String := ""
  OrderType : OrderTypeVal := ""
  Status : OrderStatusVal := ""
  PersistenceType : PersistenceTypeVal := ""
  Side : SideVal := ""
  Price : Rat := 0
  Size : Rat := 0
  BspLiability : Rat := 0
  PlacedDate : GoTime := GoTime.zero
  AvgPriceMatched : Rat := 0
  SizeMatched : Rat := 0
  SizeRemaining : Rat := 0
  SizeLapsed : Rat := 0
  SizeCancelled : Rat := 0
  SizeVoided : Rat := 0
deriving Repr, DecidableEq

def Order.marshal (o : Order) : Json :=
  Json.obj
    (plainField "BetId" (Json.str o.BetId)
      ++ plainField "OrderType" (marshalEnumVal o.OrderType)
      ++ plainField "Status" (marshalEnumVal o.Status)
      ++ plainField "PersistenceType" (marshalEnumVal o.PersistenceType)
      ++ plainField "Side" (marshalEnumVal o.Side)
      ++ plainField "Price" (Json.num o.Price)
      ++ plainField "Size" (Json.num o.Size)
      ++ plainField "BspLiability" (Json.num o.BspLiability)
      ++ plainField "PlacedDate" o.PlacedDate.marshal
      ++ plainField "AvgPriceMatched" (Json.num o.AvgPriceMatched)
      ++ plainField "SizeMatched" (Json.num o.SizeMatched)
      ++ plainField "SizeRemaining" (Json.num o.SizeRemaining)
      ++ plainField "SizeLapsed" (Json.num o.SizeLapsed)
      ++ plainField "SizeCancelled" (Json.num o.SizeCancelled)
      ++ plainField "SizeVoided" (Json.num o.SizeVoided))

/-- `Match` (betting.go lines 266-273): `betId`, `matchDate`, `matchId`
carry `omitempty`; `price`, `side`, `size` do not.  `matchDate` is a
struct (`time.Time`), so its `omitempty` never fires. -/
structure Match where
  BetID : String := ""
  MatchDate : GoTime := GoTime.zero
  MatchID : String := ""
  Price : String := ""
  Side : SideVal := ""
  Size : Rat := 0
deriving Repr, DecidableEq

def Match.marshal (m : Match) : Json :=
  Json.obj
    (omitemptyStr "betId" m.BetID
      ++ omitemptyStruct "matchDate" m.MatchDate.marshal
      ++ omitemptyStr "matchId" m.MatchID
      ++ plainField "price" (Json.str m.Price)
      ++ plainField "side" (marshalEnumVal m.Side)
      ++ plainField "size" (Json.num m.Size))

/-- `Runner` (betting.go lines 297-309): every field is tagged
`omitempty`, but `removalDate`, `sp` and `ex` are structs, which Go
never treats as empty, so they are always emitted. -/
structure Runner where
  SelectionID : Nat := 0
  Handicap : Rat := 0
  Status : RunnerStatusVal := ""
  AdjustmentFactor : Rat := 0
  LastPriceTraded : Rat := 0
  TotalMatched : Rat := 0
  RemovalDate : GoTime := GoTime.zero
  StartingPrices : StartingPrices := {}
  ExchangePrices : ExchangePrices := {}
  Orders : List Order := []
  Matches : List Match := []
deriving Repr, DecidableEq

def Runner.marshal (r : Runner) : Json :=
  Json.obj
    (omitemptyUInt "selectionId" r.SelectionID
      ++ omitemptyFloat "handicap" r.Handicap
      ++ omitemptyStr "status" r.Status
      ++ omitemptyFloat "adjustmentFactor" r.AdjustmentFactor
      ++ omitemptyFloat "lastPriceTraded" r.LastPriceTraded
      ++ omitemptyFloat "totalMatched" r.TotalMatched
      ++ omitemptyStruct "removalDate" r.RemovalDate.marshal
      ++ omitemptyStruct "sp" r.StartingPrices.marshal
      ++ omitemptyStruct "ex" r.ExchangePrices.marshal
      ++ omitemptyArr "orders" (r.Orders.map Order.marshal)
      ++ omitemptyArr "matches" (r.Matches.map Match.marshal))

/-- `MarketBook` (betting.go lines 276-294): untagged. -/
structure MarketBook where
  MarketId : String := ""
  IsMarketDataDelayed : Bool := false
  Status : String := ""
  BetDelay : Int := 0
  BspReconciled : Bool := false
  Complete : Bool := false
  Inplay : Bool := false
  NumberOfWinners : Int := 0
  NumberOfRunners : Int := 0
  NumberOfActiveRunners : Int := 0
  LastMatchTime : GoTime := GoTime.zero
  TotalMatched : Rat := 0
  TotalAvailable : Rat := 0
  CrossMatching : Bool := false
  RunnersVoidable : Bool := false
  Version : Int := 0
  Runners : List Runner := []
deriving Repr, DecidableEq

def MarketBook.marshal (b : MarketBook) : Json :=
  Json.obj
    (plainField "MarketId" (Json.str b.MarketId)
      ++ plainField "IsMarketDataDelayed" (Json.bool b.IsMarketDataDelayed)
      ++ plainField "Status" (Json.str b.Status)
      ++ plainField "BetDelay" (Json.num (b.BetDelay : Rat))
      ++ plainField "BspReconciled" (Json.bool b.BspReconciled)
      ++ plainField "Complete" (Json.bool b.Complete)
      ++ plainField "Inplay" (Json.bool b.Inplay)
      ++ plainField "NumberOfWinners" (Json.num (b.NumberOfWinners : Rat))
      ++ plainField "NumberOfRunners" (Json.num (b.NumberOfRunners : Rat))
      ++ plainField "NumberOfActiveRunners" (Json.num (b.NumberOfActiveRunners : Rat))
      ++ plainField "LastMatchTime" b.LastMatchTime.marshal
      ++ plainField "TotalMatched" (Json.num b.TotalMatched)
      ++ plainField "TotalAvailable" (Json.num b.TotalAvailable)
      ++ plainField "CrossMatching" (Json.bool b.CrossMatching)
      ++ plainField "RunnersVoidable" (Json.bool b.RunnersVoidable)
      ++ plainField "Version" (Json.num (b.Version : Rat))
      ++ plainField "Runners" (Json.arr (b.Runners.map Runner.marshal)))

/-- `RunnerCatalog` (betting.go lines 312-318): untagged; the metadata
map is an association list (Go marshals maps with sorted keys; key order
is not significant for any property proved here). -/
structure RunnerCatalog where
  SelectionId : Nat := 0
  RunnerName : String := ""
  Handicap : Rat := 0
  SortPriority : Int := 0
  Metadata : List (String × String) := []
deriving Repr, DecidableEq

def RunnerCatalog.marshal (r : RunnerCatalog) : Json :=
  Json.obj
    (plainField "SelectionId" (Json.num (r.SelectionId : Rat))
      ++ plainField "RunnerName" (Json.str r.RunnerName)
      ++ plainField "Handicap" (Json.num r.Handicap)
      ++ plainField "SortPriority" (Json.num (r.SortPriority : Rat))
      ++ plainField "Metadata"
        (Json.obj (r.Metadata.map fun kv => (kv.1, Json.str kv.2))))

/-- `MarketDescription` (betting.go lines 334-350): untagged. -/
structure MarketDescription where
  PersistenceEnabled : Bool := false
  BspMarket : Bool := false
  MarketTime : GoTime := GoTime.zero
  SuspendTime : GoTime := GoTime.zero
  SettleTime : GoTime := GoTime.zero
  BettingType : String := ""
  TurnInPlayEnabled : Bool := false
  MarketType : String := ""
  Regulator : String := ""
  MarketBaseRate : Rat := 0
  DiscountAllowed : Bool := false
  Wallet : String := ""
  Rules : String := ""
  RulesHasDate : Bool := false
  Clarifications : String := ""
deriving Repr, DecidableEq

def MarketDescription.marshal (d : MarketDescription) : Json :=
  Json.obj
    (plainField "PersistenceEnabled" (Json.bool d.PersistenceEnabled)
      ++ plainField "BspMarket" (Json.bool d.BspMarket)
      ++ plainField "MarketTime" d.MarketTime.marshal
      ++ plainField "SuspendTime" d.SuspendTime.marshal
      ++ plainField "SettleTime" d.SettleTime.marshal
      ++ plainField "BettingType" (Json.str d.BettingType)
      ++ plainField "TurnInPlayEnabled" (Json.bool d.TurnInPlayEnabled)
      ++ plainField "MarketType" (Json.str d.MarketType)
      ++ plainField "Regulator" (Json.str d.Regulator)
      ++ plainField "MarketBaseRate" (Json.num d.MarketBaseRate)
      ++ plainField "DiscountAllowed" (Json.bool d.DiscountAllowed)
      ++ plainField "Wallet" (Json.str d.Wallet)
      ++ plainField "Rules" (Json.str d.Rules)
      ++ plainField "RulesHasDate" (Json.bool d.RulesHasDate)
      ++ plainField "Clarifications" (Json.str d.Clarifications))

/-- `MarketCatalogue` (betting.go lines 321-331): untagged. -/
structure MarketCatalogue where
  MarketId : String := ""
  MarketName : String := ""
  MarketStartTime : GoTime := GoTime.zero
  Description : Option MarketDescription := none
  TotalMatched : Rat := 0
  Runners : List RunnerCatalog := []
  EventType : Option EventType := none
  Competition : Option Competition := none
  Event : Option Event := none
deriving Repr, DecidableEq

def MarketCatalogue.marshal (c : MarketCatalogue) : Json :=
  Json.obj
    (plainField "MarketId" (Json.str c.MarketId)
      ++ plainField "MarketName" (Json.str c.MarketName)
      ++ plainField "MarketStartTime" c.MarketStartTime.marshal
      ++ ptrField "Description" MarketDescription.marshal c.Description
      ++ plainField "TotalMatched" (Json.num c.TotalMatched)
      ++ plainField "Runners" (Json.arr (c.Runners.map RunnerCatalog.marshal))
      ++ ptrField "EventType" EventType.marshal c.EventType
      ++ ptrField "Competition" Competition.marshal c.Competition
      ++ ptrField "Event" Event.marshal c.Event)

/-- `MarketTypeResult` (betting.go lines 353-356). -/
structure MarketTypeResult where
  MarketType : String := ""
  MarketCount : Int := 0
deriving Repr, DecidableEq

def MarketTypeResult.marshal (r : MarketTypeResult) : Json :=
  Json.obj
    (plainField "MarketType" (Json.str r.MarketType)
      ++ plainField "MarketCount" (Json.num (r.MarketCount : Rat)))

/-! ### Unmarshalling (model of `json.Unmarshal` on the types above)

Go's decoder matches object keys to struct fields by exact name first,
then ASCII-case-insensitively; a later duplicate key overwrites an
earlier one; a missing field keeps its zero value; JSON `null` leaves a
non-pointer target at its zero value and sets a pointer target to nil;
a shape mismatch aborts with an error (Go's type-specific messages are
flattened to the single values below). -/

/-- Go's `*json.SyntaxError`, flattened. -/
def goSyntaxErr : GoError := ⟨"invalid character in JSON input"⟩

/-- Go's `*json.UnmarshalTypeError`, flattened. -/
def goTypeErr : GoError := ⟨"json: cannot unmarshal value into Go value"⟩

/-- Lower-case an ASCII letter (model of the case folding Go's decoder
applies to field names, which are ASCII identifiers). -/
def lowerChar (c : Char) : Char :=
  if 65 ≤ c.toNat ∧ c.toNat ≤ 90 then Char.ofNat (c.toNat + 32) else c

/-- ASCII-case-insensitive equality of field names. -/
def foldEq (a b : String) : Bool :=
  a.data.map lowerChar == b.data.map lowerChar

/-- Last value under a key selected by `match?` (later duplicate JSON
keys overwrite earlier ones in Go's decoder). -/
def lookupBy (match? : String → Bool) : List (String × Json) → Option Json
  | [] => none
  | kv :: rest =>
    match lookupBy match? rest with
    | some v => some v
    | none => if match? kv.1 then some kv.2 else none

/-- Find the value for struct field `name`: exact key match first, then
ASCII-case-insensitive. -/
def lookupField (kvs : List (String × Json)) (name : String) : Option Json :=
  match lookupBy (fun k => k == name) kvs with
  | some v => some v
  | none => lookupBy (fun k => foldEq k name) kvs

/-- Decode one struct field: a missing key keeps the zero value. -/
def decodeField (kvs : List (String × Json)) (name : String)
    (dec : Json → Except GoError α) (zero : α) : Except GoError α :=
  match lookupField kvs name with
  | none => .ok zero
  | some v => dec v

/-- Decode into a Go `string` (or string-alias) target. -/
def decodeString : Json → Except GoError String
  | .str s => .ok s
  | .null => .ok ""
  | _ => .error goTypeErr

/-- Decode into a Go `bool` target. -/
def decodeBool : Json → Except GoError Bool
  | .bool b => .ok b
  | .null => .ok false
  | _ => .error goTypeErr

/-- Decode into a Go `int` target: the number must be integral. -/
def decodeInt : Json → Except GoError Int
  | .num q => if q.den = 1 then .ok q.num else .error goTypeErr
  | .null => .ok 0
  | _ => .error goTypeErr

/-- Decode into a Go `uint32` target: integral and non-negative. -/
def decodeUInt : Json → Except GoError Nat
  | .num q =>
    if q.den = 1 ∧ 0 ≤ q.num then .ok q.num.toNat else .error goTypeErr
  | .null => .ok 0
  | _ => .error goTypeErr

/-- Decode into a `float32` target (any JSON number; see the `Rat`
modelling note at the top of the file). -/
def decodeFloat : Json → Except GoError Rat
  | .num q => .ok q
  | .null => .ok 0
  | _ => .error goTypeErr

/-- Decode into a `time.Time` target (its `UnmarshalJSON` expects a
string; the model keeps the RFC 3339 text). -/
def decodeTime : Json → Except GoError GoTime
  | .str s => .ok ⟨s⟩
  | .null => .ok GoTime.zero
  | _ => .error goTypeErr

/-- Decode into a pointer target: `null` sets it to nil. -/
def decodePtr (dec : Json → Except GoError α) : Json → Except GoError (Option α)
  | .null => .ok none
  | j => do
    let x ← dec j
    .ok (some x)

/-- Decode into a slice target: `null` leaves the nil slice; an element
error aborts. -/
def decodeList (dec : Json → Except GoError α) : Json → Except GoError (List α)
  | .arr js => js.mapM dec
  | .null => .ok []
  | _ => .error goTypeErr

/-- Decode one `map[string]string` entry. -/
def decodeStrPair (kv : String × Json) : Except GoError (String × String) := do
  let v ← decodeString kv.2
  .ok (kv.1, v)

/-- Decode into a `map[string]string` target. -/
def decodeStrMap : Json → Except GoError (List (String × String))
  | .obj kvs => kvs.mapM decodeStrPair
  | .null => .ok []
  | _ => .error goTypeErr

def decodeEventType : Json → Except GoError EventType
  | .obj kvs => do
    let id ← decodeField kvs "ID" decodeString ""
    let nm ← decodeField kvs "Name" decodeString ""
    .ok { ID := id, Name := nm }
  | .null => .ok {}
  | _ => .error goTypeErr

def decodeEventTypeResult : Json → Except GoError EventTypeResult
  | .obj kvs => do
    let et ← decodeField kvs "EventType" (decodePtr decodeEventType) none
    let mc ← decodeField kvs "MarketCount" decodeInt 0
    .ok { EventType := et, MarketCount := mc }
  | .null => .ok {}
  | _ => .error goTypeErr

def decodeCompetition : Json → Except GoError Competition
  | .obj kvs => do
    let id ← decodeField kvs "Id" decodeString ""
    let nm ← decodeField kvs "Name" decodeString ""
    .ok { Id := id, Name := nm }
  | .null => .ok {}
  | _ => .error goTypeErr

def decodeCompetitionResult : Json → Except GoError CompetitionResult
  | .obj kvs => do
    let c ← decodeField kvs "Competition" (decodePtr decodeCompetition) none
    let mc ← decodeField kvs "MarketCount" decodeInt 0
    let cr ← decodeField kvs "CompetitionRegion" decodeString ""
    .ok { Competition := c, MarketCount := mc, CompetitionRegion := cr }
  | .null => .ok {}
  | _ => .error goTypeErr

def decodeCountryCodeResult : Json → Except GoError CountryCodeResult
  | .obj kvs => do
    let cc ← decodeField kvs "CountryCode" decodeString ""
    let mc ← decodeField kvs "MarketCount" decodeInt 0
    .ok { CountryCode := cc, MarketCount := mc }
  | .null => .ok {}
  | _ => .error goTypeErr

def decodeEvent : Json → Except GoError Event
  | .obj kvs => do
    let id ← decodeField kvs "Id" decodeString ""
    let nm ← decodeField kvs "Name" decodeString ""
    let cc ← decodeField kvs "CountryCode" decodeString ""
    let tz ← decodeField kvs "Timezone" decodeString ""
    let ve ← decodeField kvs "Venue" decodeString ""
    let od ← decodeField kvs "OpenDate" decodeTime GoTime.zero
    .ok { Id := id, Name := nm, CountryCode := cc, Timezone := tz,
          Venue := ve, OpenDate := od }
  | .null => .ok {}
  | _ => .error goTypeErr

def decodeEventResult : Json → Except GoError EventResult
  | .obj kvs => do
    let ev ← decodeField kvs "Event" (decodePtr decodeEvent) none
    let mc ← decodeField kvs "MarketCount" decodeInt 0
    .ok { Event := ev, MarketCount := mc }
  | .null => .ok {}
  | _ => .error goTypeErr

def decodePriceSize : Json → Except GoError PriceSize
  | .obj kvs => do
    let p ← decodeField kvs "price" decodeFloat 0
    let s ← decodeField kvs "size" decodeFloat 0
    .ok { Price := p, Size := s }
  | .null => .ok {}
  | _ => .error goTypeErr

def decodeStartingPrices : Json → Except GoError StartingPrices
  | .obj kvs => do
    let np ← decodeField kvs "nearPrice" decodeFloat 0
    let fp ← decodeField kvs "farPrice" decodeFloat 0
    let bst ← decodeField kvs "backStakeTaken" (decodeList decodePriceSize) []
    let llt ← decodeField kvs "layLiabilityTaken" (decodeList decodePriceSize) []
    let asp ← decodeField kvs "actualSP" decodeFloat 0
    .ok { NearPrice := np, FarPrice := fp, BackStakeTaken := bst,
          LayLiabilityTaken := llt, ActualSP := asp }
  | .null => .ok {}
  | _ => .error goTypeErr

def decodeExchangePrices : Json → Except GoError ExchangePrices
  | .obj kvs => do
    let atb ← decodeField kvs "availableToBack" (decodeList decodePriceSize) []
    let atl ← decodeField kvs "availableToLay" (decodeList decodePriceSize) []
    let tv ← decodeField kvs "TradedVolume" (decodeList decodePriceSize) []
    .ok { AvailableToBack := atb, AvailableToLay := atl, TradedVolume := tv }
  | .null => .ok {}
  | _ => .error goTypeErr

def decodeOrder : Json → Except GoError Order
  | .obj kvs => do
    let bid ← decodeField kvs "BetId" decodeString ""
    let ot ← decodeField kvs "OrderType" decodeString ""
    let st ← decodeField kvs "Status" decodeString ""
    let pt ← decodeField kvs "PersistenceType" decodeString ""
    let sd ← decodeField kvs "Side" decodeString ""
    let pr ← decodeField kvs "Price" decodeFloat 0
    let sz ← decodeField kvs "Size" decodeFloat 0
    let bl ← decodeField kvs "BspLiability" decodeFloat 0
    let pd ← decodeField kvs "PlacedDate" decodeTime GoTime.zero
    let apm ← decodeField kvs "AvgPriceMatched" decodeFloat 0
    let sm ← decodeField kvs "SizeMatched" decodeFloat 0
    let sr ← decodeField kvs "SizeRemaining" decodeFloat 0
    let sl ← decodeField kvs "SizeLapsed" decodeFloat 0
    let sc ← decodeField kvs "SizeCancelled" decodeFloat 0
    let sv ← decodeField kvs "SizeVoided" decodeFloat 0
    .ok { BetId := bid, OrderType := ot, Status := st, PersistenceType := pt,
          Side := sd, Price := pr, Size := sz, BspLiability := bl,
          PlacedDate := pd, AvgPriceMatched := apm, SizeMatched := sm,
          SizeRemaining := sr, SizeLapsed := sl, SizeCancelled := sc,
          SizeVoided := sv }
  | .null => .ok {}
  | _ => .error goTypeErr

def decodeMatch : Json → Except GoError Match
  | .obj kvs => do
    let bid ← decodeField kvs "betId" decodeString ""
    let md ← decodeField kvs "matchDate" decodeTime GoTime.zero
    let mid ← decodeField kvs "matchId" decodeString ""
    let pr ← decodeField kvs "price" decodeString ""
    let sd ← decodeField kvs "side" decodeString ""
    let sz ← decodeField kvs "size" decodeFloat 0
    .ok { BetID := bid, MatchDate := md, MatchID := mid, Price := pr,
          Side := sd, Size := sz }
  | .null => .ok {}
  | _ => .error goTypeErr

def decodeRunner : Json → Except GoError Runner
  | .obj kvs => do
    let sid ← decodeField kvs "selectionId" decodeUInt 0
    let hc ← decodeField kvs "handicap" decodeFloat 0
    let st ← decodeField kvs "status" decodeString ""
    let af ← decodeField kvs "adjustmentFactor" decodeFloat 0
    let lpt ← decodeField kvs "lastPriceTraded" decodeFloat 0
    let tm ← decodeField kvs "totalMatched" decodeFloat 0
    let rd ← decodeField kvs "removalDate" decodeTime GoTime.zero
    let sp ← decodeField kvs "sp" decodeStartingPrices {}
    let ex ← decodeField kvs "ex" decodeExchangePrices {}
    let os ← decodeField kvs "orders" (decodeList decodeOrder) []
    let ms ← decodeField kvs "matches" (decodeList decodeMatch) []
    .ok { SelectionID := sid, Handicap := hc, Status := st,
          AdjustmentFactor := af, LastPriceTraded := lpt, TotalMatched := tm,
          RemovalDate := rd, StartingPrices := sp, ExchangePrices := ex,
          Orders := os, Matches := ms }
  | .null => .ok {}
  | _ => .error goTypeErr

def decodeMarketBook : Json → Except GoError MarketBook
  | .obj kvs => do
    let mid ← decodeField kvs "MarketId" decodeString ""
    let imdd ← decodeField kvs "IsMarketDataDelayed" decodeBool false
    let st ← decodeField kvs "Status" decodeString ""
    let bd ← decodeField kvs "BetDelay" decodeInt 0
    let br ← decodeField kvs "BspReconciled" decodeBool false
    let cp ← decodeField kvs "Complete" decodeBool false
    let ip ← decodeField kvs "Inplay" decodeBool false
    let nw ← decodeField kvs "NumberOfWinners" decodeInt 0
    let nr ← decodeField kvs "NumberOfRunners" decodeInt 0
    let nar ← decodeField kvs "NumberOfActiveRunners" decodeInt 0
    let lmt ← decodeField kvs "LastMatchTime" decodeTime GoTime.zero
    let tm ← decodeField kvs "TotalMatched" decodeFloat 0
    let ta ← decodeField kvs "TotalAvailable" decodeFloat 0
    let cm ← decodeField kvs "CrossMatching" decodeBool false
    let rv ← decodeField kvs "RunnersVoidable" decodeBool false
    let vn ← decodeField kvs "Version" decodeInt 0
    let rs ← decodeField kvs "Runners" (decodeList decodeRunner) []
    .ok { MarketId := mid, IsMarketDataDelayed := imdd, Status := st,
          BetDelay := bd, BspReconciled := br, Complete := cp, Inplay := ip,
          NumberOfWinners := nw, NumberOfRunners := nr,
          NumberOfActiveRunners := nar, LastMatchTime := lmt,
          TotalMatched := tm, TotalAvailable := ta, CrossMatching := cm,
          RunnersVoidable := rv, Version := vn, Runners := rs }
  | .null => .ok {}
  | _ => .error goTypeErr

def decodeRunnerCatalog : Json → Except GoError RunnerCatalog
  | .obj kvs => do
    let sid ← decodeField kvs "SelectionId" decodeUInt 0
    let rn ← decodeField kvs "RunnerName" decodeString ""
    let hc ← decodeField kvs "Handicap" decodeFloat 0
    let sp ← decodeField kvs "SortPriority" decodeInt 0
    let md ← decodeField kvs "Metadata" decodeStrMap []
    .ok { SelectionId := sid, RunnerName := rn, Handicap := hc,
          SortPriority := sp, Metadata := md }
  | .null => .ok {}
  | _ => .error goTypeErr

def decodeMarketDescription : Json → Except GoError MarketDescription
  | .obj kvs => do
    let pe ← decodeField kvs "PersistenceEnabled" decodeBool false
    let bm ← decodeField kvs "BspMarket" decodeBool false
    let mt ← decodeField kvs "MarketTime" decodeTime GoTime.zero
    let sut ← decodeField kvs "SuspendTime" decodeTime GoTime.zero
    let set ← decodeField kvs "SettleTime" decodeTime GoTime.zero
    let bt ← decodeField kvs "BettingType" decodeString ""
    let tip ← decodeField kvs "TurnInPlayEnabled" decodeBool false
    let mty ← decodeField kvs "MarketType" decodeString ""
    let rg ← decodeField kvs "Regulator" decodeString ""
    let mbr ← decodeField kvs "MarketBaseRate" decodeFloat 0
    let da ← decodeField kvs "DiscountAllowed" decodeBool false
    let wl ← decodeField kvs "Wallet" decodeString ""
    let ru ← decodeField kvs "Rules" decodeString ""
    let rhd ← decodeField kvs "RulesHasDate" decodeBool false
    let cl ← decodeField kvs "Clarifications" decodeString ""
    .ok { PersistenceEnabled := pe, BspMarket := bm, MarketTime := mt,
          SuspendTime := sut, SettleTime := set, BettingType := bt,
          TurnInPlayEnabled := tip, MarketType := mty, Regulator := rg,
          MarketBaseRate := mbr, DiscountAllowed := da, Wallet := wl,
          Rules := ru, RulesHasDate := rhd, Clarifications := cl }
  | .null => .ok {}
  | _ => .error goTypeErr

def decodeMarketCatalogue : Json → Except GoError MarketCatalogue
  | .obj kvs => do
    let mid ← decodeField kvs "MarketId" decodeString ""
    let mn ← decodeField kvs "MarketName" decodeString ""
    let mst ← decodeField kvs "MarketStartTime" decodeTime GoTime.zero
    let dsc ← decodeField kvs "Description" (decodePtr decodeMarketDescription) none
    let tm ← decodeField kvs "TotalMatched" decodeFloat 0
    let rs ← decodeField kvs "Runners" (decodeList decodeRunnerCatalog) []
    let et ← decodeField kvs "EventType" (decodePtr decodeEventType) none
    let cp ← decodeField kvs "Competition" (decodePtr decodeCompetition) none
    let ev ← decodeField kvs "Event" (decodePtr decodeEvent) none
    .ok { MarketId := mid, MarketName := mn, MarketStartTime := mst,
          Description := dsc, TotalMatched := tm, Runners := rs,
          EventType := et, Competition := cp, Event := ev }
  | .null => .ok {}
  | _ => .error goTypeErr

def decodeMarketTypeResult : Json → Except GoError MarketTypeResult
  | .obj kvs => do
    let mt ← decodeField kvs "MarketType" decodeString ""
    let mc ← decodeField kvs "MarketCount" decodeInt 0
    .ok { MarketType := mt, MarketCount := mc }
  | .null => .ok {}
  | _ => .error goTypeErr

/-! ### Session, transport and the shared request helper
(betting.go lines 358-455) -/

/-- Modelled from the spec: the session configuration object, defined
outside these source files, carries the configured locale, read by
`doBettingRequest` as `s.config.Locale`. -/
structure Config where
  Locale : String := ""
deriving Repr, DecidableEq

/-- Modelled from the spec: a session holds its configuration; only the
configured locale is observable in this module. -/
structure Session where
  config : Config := {}
deriving Repr, DecidableEq

/-- The raw bytes of an HTTP response body, as far as `json.Unmarshal`
distinguishes them: `some j` is a well-formed JSON document `j`, `none`
is malformed text. -/
abbrev RawDoc := Option Json

/-- The parsing half of `json.Unmarshal`: malformed input yields a
syntax error. -/
def parseDoc : RawDoc → Except GoError Json
  | some j => .ok j
  | none => .error goSyntaxErr

/-- Modelled from the spec: `doRequest`, the generic HTTP dispatch
helper defined outside these source files.  It receives the session, the
endpoint name ("betting"), the method path (`method ++ "/"`), and the
serialized body, and returns the response bytes or a transport error. -/
abbrev Transport := Session → String → String → Json → Except GoError RawDoc

/-- `params.Locale = s.config.Locale`, the first statement of
`doBettingRequest` (betting.go line 437). -/
def injectLocale (s : Session) (p : Params) : Params :=
  { p with Locale := s.config.Locale }

/-- `doBettingRequest` (betting.go lines 435-455): inject the locale,
marshal the envelope (which cannot fail: `Params` holds only strings,
string slices and an int), dispatch, and unmarshal the response into the
typed result; every error is returned as-is. -/
def doBettingRequest (transport : Transport)
    (decode : Json → Except GoError α) (s : Session) (method : String)
    (params : Params) : Except GoError α := do
  let params := injectLocale s params
  let body := params.marshal
  let data ← transport s "betting" (method ++ "/") body
  let doc ← parseDoc data
  decode doc

/-- The `(results, err)` return convention shared by every public
operation: on error the result slice is left at its zero value (nil). -/
def runBetting (transport : Transport)
    (decode : Json → Except GoError α) (s : Session) (method : String)
    (params : Params) : List α × Option GoError :=
  match doBettingRequest transport (decodeList decode) s method params with
  | .ok rs => (rs, none)
  | .error e => ([], some e)

/-- The parameter envelope built by `ListCompetitions` (betting.go lines
361-363): `new(Params)` then `params.MarketFilter = filter`. -/
def listCompetitionsParams (filter : Option MarketFilter) : Params :=
  { ({} : Params) with MarketFilter := filter }

/-- `(*Session).ListCompetitions` (betting.go lines 360-366). -/
def ListCompetitions (transport : Transport) (s : Session)
    (filter : Option MarketFilter) : List CompetitionResult × Option GoError :=
  runBetting transport decodeCompetitionResult s "listCompetitions"
    (listCompetitionsParams filter)

/-- The parameter envelope built by `ListCountries` (betting.go lines
371-373). -/
def listCountriesParams (filter : Option MarketFilter) : Params :=
  { ({} : Params) with MarketFilter := filter }

/-- `(*Session).ListCountries` (betting.go lines 370-376). -/
def ListCountries (transport : Transport) (s : Session)
    (filter : Option MarketFilter) : List CountryCodeResult × Option GoError :=
  runBetting transport decodeCountryCodeResult s "listCountries"
    (listCountriesParams filter)

/-- The parameter envelope built by `ListEvents` (betting.go lines
381-383). -/
def listEventsParams (filter : Option MarketFilter) : Params :=
  { ({} : Params) with MarketFilter := filter }

/-- `(*Session).ListEvents` (betting.go lines 380-386). -/
def ListEvents (transport : Transport) (s : Session)
    (filter : Option MarketFilter) : List EventResult × Option GoError :=
  runBetting transport decodeEventResult s "listEvents"
    (listEventsParams filter)

/-- The parameter envelope built by `ListEventTypes` (betting.go lines
391-393). -/
def listEventTypesParams (filter : Option MarketFilter) : Params :=
  { ({} : Params) with MarketFilter := filter }

/-- `(*Session).ListEventTypes` (betting.go lines 390-396). -/
def ListEventTypes (transport : Transport) (s : Session)
    (filter : Option MarketFilter) : List EventTypeResult × Option GoError :=
  runBetting transport decodeEventTypeResult s "listEventTypes"
    (listEventTypesParams filter)

/-- The parameter envelope built by `ListMarketBook` (betting.go lines
403-405): marketIds, then `SetProjections`. -/
def listMarketBookParams (marketIds : List String)
    (projectionsParam : ProjectionParams) : Params :=
  ({ ({} : Params) with MarketIds := marketIds }).SetProjections
    projectionsParam

/-- `(*Session).ListMarketBook` (betting.go lines 401-408). -/
def ListMarketBook (transport : Transport) (s : Session)
    (marketIds : List String) (projectionsParam : ProjectionParams) :
    List MarketBook × Option GoError :=
  runBetting transport decodeMarketBook s "listMarketBook"
    (listMarketBookParams marketIds projectionsParam)

/-- The parameter envelope built by `ListMarketCatalogue` (betting.go
lines 416-419): filter, maxResults, then `SetProjections`. -/
def listMarketCatalogueParams (filter : Option MarketFilter)
    (maxResults : Int) (projectionsParam : ProjectionParams) : Params :=
  ({ ({} : Params) with
      MarketFilter := filter
      MaxResults := maxResults }).SetProjections projectionsParam

/-- `(*Session).ListMarketCatalogue` (betting.go lines 414-422). -/
def ListMarketCatalogue (transport : Transport) (s : Session)
    (filter : Option MarketFilter) (maxResults : Int)
    (projectionsParam : ProjectionParams) :
    List MarketCatalogue × Option GoError :=
  runBetting transport decodeMarketCatalogue s "listMarketCatalogue"
    (listMarketCatalogueParams filter maxResults projectionsParam)

/-- The parameter envelope built by `ListMarketTypes` (betting.go lines
428-430). -/
def listMarketTypesParams (filter : Option MarketFilter) : Params :=
  { ({} : Params) with MarketFilter := filter }

/-- `(*Session).ListMarketTypes` (betting.go lines 427-433). -/
def ListMarketTypes (transport : Transport) (s : Session)
    (filter : Option MarketFilter) : List MarketTypeResult × Option GoError :=
  runBetting transport decodeMarketTypeResult s "listMarketTypes"
    (listMarketTypesParams filter)

/-- The wire request a call produces: the method name together with the
serialized body (after locale injection). -/
def bettingRequestPayload (s : Session) (method : String) (p : Params) :
    String × Json :=
  (method, (injectLocale s p).marshal)

/-! ### The earlier revision of betting.go (src/unnamed/part_000)

Only what claim C10 needs: its `Params` envelope (whose
`OrderProjection`/`MatchProjection` fields are slices rather than single
values, and whose `PriceProjection.PriceData` is `[]string`, marshalling
identically to the current `PriceProjection`), its five filter-only
operations, and its `doBettingRequest` serialization path, which is
textually identical to the current one.  Its `MarketFilter` is textually
identical to the current one and is reused. -/

/-- `Params` of the earlier revision (part_000 lines 93-102). -/
structure OldParams where
  MarketFilter : Option MarketFilter := none
  MarketIds : List String := []
  PriceProjection : Option PriceProjection := none
  MarketProjection : List MarketProjVal := []
  OrderProjection : List OrderProjVal := []
  MatchProjection : List MatchProjVal := []
  MaxResults : Int := 0
  Locale : String := ""
deriving Repr, DecidableEq

/-- `json.Marshal` of the earlier revision's `Params`: same tags, but
`orderProjection` and `matchProjection` are slice fields. -/
def OldParams.marshal (p : OldParams) : Json :=
  Json.obj
    (omitemptyPtr "filter" MarketFilter.marshal p.MarketFilter
      ++ omitemptyArr "marketIds" (p.MarketIds.map Json.str)
      ++ omitemptyPtr "priceProjection" PriceProjection.marshal p.PriceProjection
      ++ omitemptyArr "marketProjection" (p.MarketProjection.map marshalEnumVal)
      ++ omitemptyArr "orderProjection" (p.OrderProjection.map marshalEnumVal)
      ++ omitemptyArr "matchProjection" (p.MatchProjection.map marshalEnumVal)
      ++ omitemptyInt "maxResults" p.MaxResults
      ++ omitemptyStr "locale" p.Locale)

/-- Locale injection in the earlier revision's `doBettingRequest`
(part_000 line 304), textually identical to the current one. -/
def oldInjectLocale (s : Session) (p : OldParams) : OldParams :=
  { p with Locale := s.config.Locale }

/-- The wire request the earlier revision produces for a call. -/
def oldBettingRequestPayload (s : Session) (method : String)
    (p : OldParams) : String × Json :=
  (method, (oldInjectLocale s p).marshal)

/-- The envelope built by the earlier revision's filter-only operations
(part_000 lines 228-264 and 294-300): identical statements
`params := new(Params); params.MarketFilter = filter`. -/
def oldFilterOnlyParams (filter : Option MarketFilter) : OldParams :=
  { ({} : OldParams) with MarketFilter := filter }

/-- The request of the earlier revision's `ListCompetitions`
(part_000 lines 228-234). -/
def oldListCompetitionsRequest (s : Session) (filter : Option MarketFilter) :
    String × Json :=
  oldBettingRequestPayload s "listCompetitions" (oldFilterOnlyParams filter)

/-- The request of the earlier revision's `ListCountries`
(part_000 lines 238-244). -/
def oldListCountriesRequest (s : Session) (filter : Option MarketFilter) :
    String × Json :=
  oldBettingRequestPayload s "listCountries" (oldFilterOnlyParams filter)

/-- The request of the earlier revision's `ListEvents`
(part_000 lines 248-254). -/
def oldListEventsRequest (s : Session) (filter : Option MarketFilter) :
    String × Json :=
  oldBettingRequestPayload s "listEvents" (oldFilterOnlyParams filter)

/-- The request of the earlier revision's `ListEventTypes`
(part_000 lines 258-264). -/
def oldListEventTypesRequest (s : Session) (filter : Option MarketFilter) :
    String × Json :=
  oldBettingRequestPayload s "listEventTypes" (oldFilterOnlyParams filter)

/-- The request of the earlier revision's `ListMarketTypes`
(part_000 lines 294-300). -/
def oldListMarketTypesRequest (s : Session) (filter : Option MarketFilter) :
    String × Json :=
  oldBettingRequestPayload s "listMarketTypes" (oldFilterOnlyParams filter)

/-- The request of the current revision's `ListCompetitions`. -/
def listCompetitionsRequest (s : Session) (filter : Option MarketFilter) :
    String × Json :=
  bettingRequestPayload s "listCompetitions" (listCompetitionsParams filter)

/-- The request of the current revision's `ListCountries`. -/
def listCountriesRequest (s : Session) (filter : Option MarketFilter) :
    String × Json :=
  bettingRequestPayload s "listCountries" (listCountriesParams filter)

/-- The request of the current revision's `ListEvents`. -/
def listEventsRequest (s : Session) (filter : Option MarketFilter) :
    String × Json :=
  bettingRequestPayload s "listEvents" (listEventsParams filter)

/-- The request of the current revision's `ListEventTypes`. -/
def listEventTypesRequest (s : Session) (filter : Option MarketFilter) :
    String × Json :=
  bettingRequestPayload s "listEventTypes" (listEventTypesParams filter)

/-- The request of the current revision's `ListMarketTypes`. -/
def listMarketTypesRequest (s : Session) (filter : Option MarketFilter) :
    String × Json :=
  bettingRequestPayload s "listMarketTypes" (listMarketTypesParams filter)

/-! ### General lemmas about the marshalling model -/

theorem lookupBy_nil (f : String → Bool) : lookupBy f [] = none := rfl

/-- Reduction of `Except` bind on a success, for use by `simp`. -/
theorem exceptBindOk (a : α) (f : α → Except ε β) :
    ((Except.ok a : Except ε α) >>= f) = f a := rfl

/-- Reduction of `Except` bind on an error, for use by `simp`. -/
theorem exceptBindErr (e : ε) (f : α → Except ε β) :
    ((Except.error e : Except ε α) >>= f) = Except.error e := rfl

theorem lookupBy_append (f : String → Bool) (xs ys : List (String × Json)) :
    lookupBy f (xs ++ ys) =
      match lookupBy f ys with
      | some v => some v
      | none => lookupBy f xs := by
  induction xs with
  | nil =>
    simp only [List.nil_append]
    cases h : lookupBy f ys <;> simp [lookupBy, h]
  | cons kv rest ih =>
    have hstep : lookupBy f ((kv :: rest) ++ ys) =
        match lookupBy f (rest ++ ys) with
        | some v => some v
        | none => if f kv.1 then some kv.2 else none := rfl
    rw [hstep, ih]
    cases h : lookupBy f ys with
    | some v => rfl
    | none => rfl

/-- A selector rejecting every key in a list finds nothing. -/
theorem lookupBy_eq_none (f : String → Bool) (xs : List (String × Json))
    (h : ∀ kv ∈ xs, f kv.1 = false) : lookupBy f xs = none := by
  induction xs with
  | nil => rfl
  | cons kv rest ih =>
    simp only [lookupBy, ih fun a ha => h a (by simp [ha]), h kv (by simp),
      Bool.false_eq_true, if_false]

/-- Exact key equality implies fold equality. -/
theorem foldEq_of_eq {a b : String} (h : a = b) : foldEq a b = true := by
  subst h; simp [foldEq]

theorem beq_eq_false_of_foldEq_false {a b : String}
    (h : foldEq a b = false) : (a == b) = false := by
  cases hb : a == b with
  | false => rfl
  | true => rw [foldEq_of_eq (by simpa using hb)] at h; cases h

/-- Keys that fold-differ from `k` are invisible to `lookupField _ k`. -/
theorem lookupField_append_right (xs ys : List (String × Json)) (k : String)
    (h : ∀ kv ∈ ys, foldEq kv.1 k = false) :
    lookupField (xs ++ ys) k = lookupField xs k := by
  have hexact : lookupBy (fun a => a == k) ys = none :=
    lookupBy_eq_none _ _ fun kv hkv => beq_eq_false_of_foldEq_false (h kv hkv)
  have hfold : lookupBy (fun a => foldEq a k) ys = none :=
    lookupBy_eq_none _ _ fun kv hkv => h kv hkv
  unfold lookupField
  rw [lookupBy_append, lookupBy_append, hexact, hfold]

theorem lookupField_append_left (xs ys : List (String × Json)) (k : String)
    (h : ∀ kv ∈ xs, foldEq kv.1 k = false) :
    lookupField (xs ++ ys) k = lookupField ys k := by
  have hexact : lookupBy (fun a => a == k) xs = none :=
    lookupBy_eq_none _ _ fun kv hkv => beq_eq_false_of_foldEq_false (h kv hkv)
  have hfold : lookupBy (fun a => foldEq a k) xs = none :=
    lookupBy_eq_none _ _ fun kv hkv => h kv hkv
  unfold lookupField
  rw [lookupBy_append, lookupBy_append]
  cases h2 : lookupBy (fun a => a == k) ys with
  | some v => simp
  | none => cases h3 : lookupBy (fun a => foldEq a k) ys <;> simp [hexact, hfold]

/-- Round trip of element-wise encoding through `mapM`. -/
theorem mapM_decode_map (enc : α → β) (dec : β → Except GoError α)
    (h : ∀ x, dec (enc x) = .ok x) (xs : List α) :
    (xs.map enc).mapM dec = Except.ok xs := by
  induction xs with
  | nil => rfl
  | cons x rest ih => rw [List.map_cons, List.mapM_cons, h, ih]; rfl

/-- Round trip of a slice field. -/
theorem decodeList_roundtrip (enc : α → Json) (dec : Json → Except GoError α)
    (h : ∀ x, dec (enc x) = .ok x) (xs : List α) :
    decodeList dec (Json.arr (xs.map enc)) = .ok xs := by
  have hstep : decodeList dec (Json.arr (xs.map enc)) =
      (xs.map enc).mapM dec := rfl
  rw [hstep, mapM_decode_map enc dec h]

/-- Round trip of a pointer field, for struct encoders (which always
produce an object). -/
theorem decodePtr_roundtrip (enc : α → Json) (dec : Json → Except GoError α)
    (h : ∀ x, dec (enc x) = .ok x)
    (hobj : ∀ x, ∃ kvs, enc x = Json.obj kvs) (v : Option α) :
    decodePtr dec (encPtr enc v) = .ok v := by
  cases v with
  | none => rfl
  | some x =>
    obtain ⟨kvs, hk⟩ := hobj x
    show decodePtr dec (enc x) = .ok (some x)
    rw [hk]
    have hstep : decodePtr dec (Json.obj kvs) =
        (dec (Json.obj kvs) >>= fun y => Except.ok (some y)) := rfl
    rw [hstep, ← hk, h]
    rfl

/-- A compile-time test of the decoder on a concrete document. -/
example :
    decodeCompetition
      (Json.obj [("Id", Json.str "1"), ("Name", Json.str "x")]) =
    .ok { Id := "1", Name := "x" } := by
  simp [decodeCompetition, decodeField, lookupField, lookupBy, decodeString,
    exceptBindOk]

/-- Round trip for `Competition`. -/
theorem decode_marshal_competition (c : Competition) :
    decodeCompetition c.marshal = .ok c := by
  cases c
  simp [Competition.marshal, decodeCompetition, plainField, decodeField,
    lookupField, lookupBy, decodeString, exceptBindOk]

/-- Decoding a marshalled `int` field recovers the value. -/
theorem decodeInt_num (i : Int) : decodeInt (Json.num (i : Rat)) = .ok i := by
  simp [decodeInt, Rat.den_intCast, Rat.num_intCast]

/-- Decoding a marshalled `uint32` field recovers the value. -/
theorem decodeUInt_num (n : Nat) : decodeUInt (Json.num (n : Rat)) = .ok n := by
  simp [decodeUInt, Rat.den_natCast, Rat.num_natCast]

/-- Round trip for `PriceSize`. -/
theorem decode_marshal_priceSize (p : PriceSize) :
    decodePriceSize p.marshal = .ok p := by
  rcases p with ⟨pr, sz⟩
  by_cases hp : pr = 0 <;> by_cases hs : sz = 0 <;>
    simp +decide [PriceSize.marshal, decodePriceSize, omitemptyFloat, hp, hs,
      decodeField, lookupField, lookupBy, decodeFloat, exceptBindOk]

/-- Round trip for `Match`. -/
theorem decode_marshal_match (m : Match) :
    decodeMatch m.marshal = .ok m := by
  rcases m with ⟨bid, md, mid, pr, sd, sz⟩
  by_cases hb : bid = "" <;> by_cases hm : mid = "" <;>
    simp +decide [Match.marshal, decodeMatch, omitemptyStr, omitemptyStruct,
      plainField, marshalEnumVal, GoTime.marshal, hb, hm, decodeField,
      lookupField, lookupBy, decodeString, decodeTime, decodeFloat,
      exceptBindOk]

/-- Round trip of a non-empty slice field whose head is exposed. -/
theorem decodeList_roundtrip_cons (enc : α → Json)
    (dec : Json → Except GoError α) (h : ∀ x, dec (enc x) = .ok x)
    (x : α) (xs : List α) :
    decodeList dec (Json.arr (enc x :: xs.map enc)) = .ok (x :: xs) := by
  have hmap : enc x :: xs.map enc = (x :: xs).map enc := by simp
  rw [hmap, decodeList_roundtrip enc dec h]

/-- Round trip of the metadata map. -/
theorem decodeStrMap_roundtrip (m : List (String × String)) :
    decodeStrMap (Json.obj (m.map fun kv => (kv.1, Json.str kv.2))) =
      .ok m := by
  have hstep :
      decodeStrMap (Json.obj (m.map fun kv => (kv.1, Json.str kv.2))) =
        (m.map fun kv => (kv.1, Json.str kv.2)).mapM decodeStrPair := rfl
  rw [hstep]
  exact mapM_decode_map (fun (kv : String × String) => (kv.1, Json.str kv.2))
    decodeStrPair (fun kv => rfl) m

/-- Round trip for `EventType`. -/
theorem decode_marshal_eventType (e : EventType) :
    decodeEventType e.marshal = .ok e := by
  cases e
  simp [EventType.marshal, decodeEventType, plainField, decodeField,
    lookupField, lookupBy, decodeString, exceptBindOk]

/-- Round trip for `Event`. -/
theorem decode_marshal_event (e : Event) :
    decodeEvent e.marshal = .ok e := by
  cases e
  simp +decide [Event.marshal, decodeEvent, plainField, GoTime.marshal,
    decodeField, lookupField, lookupBy, decodeString, decodeTime,
    exceptBindOk]

/-- Round trip for `EventTypeResult`. -/
theorem decode_marshal_eventTypeResult (r : EventTypeResult) :
    decodeEventTypeResult r.marshal = .ok r := by
  cases r
  simp +decide [EventTypeResult.marshal, decodeEventTypeResult, plainField,
    ptrField, decodeField, lookupField, lookupBy, decodeInt_num,
    exceptBindOk,
    decodePtr_roundtrip _ _ decode_marshal_eventType fun x => ⟨_, rfl⟩]

/-- Round trip for `CompetitionResult`. -/
theorem decode_marshal_competitionResult (r : CompetitionResult) :
    decodeCompetitionResult r.marshal = .ok r := by
  cases r
  simp +decide [CompetitionResult.marshal, decodeCompetitionResult,
    plainField, ptrField, decodeField, lookupField, lookupBy, decodeInt_num,
    decodeString, exceptBindOk,
    decodePtr_roundtrip _ _ decode_marshal_competition fun x => ⟨_, rfl⟩]

/-- Round trip for `CountryCodeResult`. -/
theorem decode_marshal_countryCodeResult (r : CountryCodeResult) :
    decodeCountryCodeResult r.marshal = .ok r := by
  cases r
  simp +decide [CountryCodeResult.marshal, decodeCountryCodeResult,
    plainField, decodeField, lookupField, lookupBy, decodeInt_num,
    decodeString, exceptBindOk]

/-- Round trip for `EventResult`. -/
theorem decode_marshal_eventResult (r : EventResult) :
    decodeEventResult r.marshal = .ok r := by
  cases r
  simp +decide [EventResult.marshal, decodeEventResult, plainField,
    ptrField, decodeField, lookupField, lookupBy, decodeInt_num,
    exceptBindOk,
    decodePtr_roundtrip _ _ decode_marshal_event fun x => ⟨_, rfl⟩]

/-- Round trip for `MarketTypeResult`. -/
theorem decode_marshal_marketTypeResult (r : MarketTypeResult) :
    decodeMarketTypeResult r.marshal = .ok r := by
  cases r
  simp +decide [MarketTypeResult.marshal, decodeMarketTypeResult,
    plainField, decodeField, lookupField, lookupBy, decodeInt_num,
    decodeString, exceptBindOk]

/-- Round trip for `Order`. -/
theorem decode_marshal_order (o : Order) :
    decodeOrder o.marshal = .ok o := by
  cases o
  simp +decide [Order.marshal, decodeOrder, plainField, marshalEnumVal,
    GoTime.marshal, decodeField, lookupField, lookupBy, decodeString,
    decodeTime, decodeFloat, exceptBindOk]

/-- Round trip for `MarketDescription`. -/
theorem decode_marshal_marketDescription (d : MarketDescription) :
    decodeMarketDescription d.marshal = .ok d := by
  cases d
  simp +decide [MarketDescription.marshal, decodeMarketDescription,
    plainField, GoTime.marshal, decodeField, lookupField, lookupBy,
    decodeString, decodeTime, decodeFloat, decodeBool, exceptBindOk]

/-- Round trip for `RunnerCatalog`. -/
theorem decode_marshal_runnerCatalog (r : RunnerCatalog) :
    decodeRunnerCatalog r.marshal = .ok r := by
  cases r
  simp +decide [RunnerCatalog.marshal, decodeRunnerCatalog, plainField,
    decodeField, lookupField, lookupBy, decodeString, decodeUInt_num,
    decodeInt_num, decodeFloat, decodeStrMap_roundtrip, exceptBindOk]

/-- Round trip for `StartingPrices`. -/
theorem decode_marshal_startingPrices (s : StartingPrices) :
    decodeStartingPrices s.marshal = .ok s := by
  rcases s with ⟨np, fp, bst, llt, asp⟩
  by_cases h1 : np = 0 <;> by_cases h2 : fp = 0 <;> by_cases h3 : asp = 0 <;>
    cases bst <;> cases llt <;>
      simp +decide [StartingPrices.marshal, decodeStartingPrices,
        omitemptyFloat, omitemptyArr, h1, h2, h3, decodeField, lookupField,
        lookupBy, decodeFloat, exceptBindOk,
        decodeList_roundtrip_cons _ _ decode_marshal_priceSize]

/-- Round trip for `ExchangePrices`. -/
theorem decode_marshal_exchangePrices (e : ExchangePrices) :
    decodeExchangePrices e.marshal = .ok e := by
  rcases e with ⟨atb, atl, tv⟩
  cases atb <;> cases atl <;> cases tv <;>
    simp +decide [ExchangePrices.marshal, decodeExchangePrices,
      omitemptyArr, decodeField, lookupField, lookupBy,
      exceptBindOk, decodeList_roundtrip_cons _ _ decode_marshal_priceSize]

/-- `time.Time` round trip. -/
theorem decodeTime_marshal (t : GoTime) : decodeTime (GoTime.marshal t) = .ok t := rfl

/-! #### Field navigation lemmas

`Runner.marshal` emits eleven conditional segments; rather than case
over all of them, the decoder's field lookups are resolved one segment
at a time: a segment whose key cannot match the sought field name is
skipped, and once only the field's own segment can match, it is
evaluated in isolation. -/

/-- Every key of a segment fold-differs from the sought field name. -/
def segFoldFree (seg : List (String × Json)) (k : String) : Prop :=
  ∀ kv ∈ seg, foldEq kv.1 k = false

theorem mem_omitemptyStr {kv : String × Json} {k v}
    (h : kv ∈ omitemptyStr k v) : kv.1 = k := by
  unfold omitemptyStr at h
  split at h <;> simp_all

theorem mem_omitemptyArr {kv : String × Json} {k vs}
    (h : kv ∈ omitemptyArr k vs) : kv.1 = k := by
  unfold omitemptyArr at h
  split at h <;> simp_all

theorem mem_omitemptyInt {kv : String × Json} {k v}
    (h : kv ∈ omitemptyInt k v) : kv.1 = k := by
  unfold omitemptyInt at h
  split at h <;> simp_all

theorem mem_omitemptyFloat {kv : String × Json} {k v}
    (h : kv ∈ omitemptyFloat k v) : kv.1 = k := by
  unfold omitemptyFloat at h
  split at h <;> simp_all

theorem mem_omitemptyUInt {kv : String × Json} {k v}
    (h : kv ∈ omitemptyUInt k v) : kv.1 = k := by
  unfold omitemptyUInt at h
  split at h <;> simp_all

theorem mem_omitemptyPtr {kv : String × Json} {k} {enc : α → Json} {v}
    (h : kv ∈ omitemptyPtr k enc v) : kv.1 = k := by
  unfold omitemptyPtr at h
  cases v <;> simp_all

theorem segFoldFree_omitemptyStr {k' k : String} {v}
    (hne : foldEq k' k = false) : segFoldFree (omitemptyStr k' v) k :=
  fun kv hkv => by rw [mem_omitemptyStr hkv]; exact hne

theorem segFoldFree_omitemptyArr {k' k : String} {vs}
    (hne : foldEq k' k = false) : segFoldFree (omitemptyArr k' vs) k :=
  fun kv hkv => by rw [mem_omitemptyArr hkv]; exact hne

theorem segFoldFree_omitemptyInt {k' k : String} {v}
    (hne : foldEq k' k = false) : segFoldFree (omitemptyInt k' v) k :=
  fun kv hkv => by rw [mem_omitemptyInt hkv]; exact hne

theorem segFoldFree_omitemptyFloat {k' k : String} {v}
    (hne : foldEq k' k = false) : segFoldFree (omitemptyFloat k' v) k :=
  fun kv hkv => by rw [mem_omitemptyFloat hkv]; exact hne

theorem segFoldFree_omitemptyUInt {k' k : String} {v}
    (hne : foldEq k' k = false) : segFoldFree (omitemptyUInt k' v) k :=
  fun kv hkv => by rw [mem_omitemptyUInt hkv]; exact hne

theorem segFoldFree_omitemptyStruct {k' k : String} {j}
    (hne : foldEq k' k = false) : segFoldFree (omitemptyStruct k' j) k :=
  fun kv hkv => by
    have hk : kv = (k', j) := by simpa [omitemptyStruct] using hkv
    rw [hk]; exact hne

theorem segFoldFree_plainField {k' k : String} {j}
    (hne : foldEq k' k = false) : segFoldFree (plainField k' j) k :=
  fun kv hkv => by
    have hk : kv = (k', j) := by simpa [plainField] using hkv
    rw [hk]; exact hne

theorem segFoldFree_ptrField {k' k : String} {enc : α → Json} {v}
    (hne : foldEq k' k = false) : segFoldFree (ptrField k' enc v) k :=
  fun kv hkv => by
    have hk : kv = (k', encPtr enc v) := by simpa [ptrField] using hkv
    rw [hk]; exact hne

theorem segFoldFree_omitemptyPtr {k' k : String} {enc : α → Json} {v}
    (hne : foldEq k' k = false) : segFoldFree (omitemptyPtr k' enc v) k :=
  fun kv hkv => by rw [mem_omitemptyPtr hkv]; exact hne

theorem segFoldFree_nil {k : String} : segFoldFree [] k :=
  fun kv hkv => absurd hkv (List.not_mem_nil kv)

theorem segFoldFree_append {xs ys : List (String × Json)} {k : String}
    (hx : segFoldFree xs k) (hy : segFoldFree ys k) :
    segFoldFree (xs ++ ys) k := by
  intro kv hkv
  rcases List.mem_append.mp hkv with h | h
  exacts [hx kv h, hy kv h]

/-- Skip a leading segment that cannot hold the sought field. -/
theorem decodeField_skip {seg rest : List (String × Json)} {k : String}
    (hseg : segFoldFree seg k) (dec : Json → Except GoError α) (z : α) :
    decodeField (seg ++ rest) k dec z = decodeField rest k dec z := by
  unfold decodeField
  rw [lookupField_append_left _ _ _ hseg]

/-- Cut a trailing region that cannot hold the sought field. -/
theorem decodeField_last {seg rest : List (String × Json)} {k : String}
    (hrest : segFoldFree rest k) (dec : Json → Except GoError α) (z : α) :
    decodeField (seg ++ rest) k dec z = decodeField seg k dec z := by
  unfold decodeField
  rw [lookupField_append_right _ _ _ hrest]

/-- Evaluate the sought field on its own `omitempty` string segment. -/
theorem decodeField_omitemptyStr_self (k : String) (v : String) :
    decodeField (omitemptyStr k v) k decodeString "" = .ok v := by
  by_cases h : v = "" <;>
    simp [omitemptyStr, h, decodeField, lookupField, lookupBy, decodeString]

theorem decodeField_omitemptyFloat_self (k : String) (v : Rat) :
    decodeField (omitemptyFloat k v) k decodeFloat 0 = .ok v := by
  by_cases h : v = 0 <;>
    simp [omitemptyFloat, h, decodeField, lookupField, lookupBy, decodeFloat]

theorem decodeField_omitemptyUInt_self (k : String) (v : Nat) :
    decodeField (omitemptyUInt k v) k decodeUInt 0 = .ok v := by
  by_cases h : v = 0 <;>
    simp [omitemptyUInt, h, decodeField, lookupField, lookupBy, decodeUInt_num]

theorem decodeField_omitemptyInt_self (k : String) (v : Int) :
    decodeField (omitemptyInt k v) k decodeInt 0 = .ok v := by
  by_cases h : v = 0 <;>
    simp [omitemptyInt, h, decodeField, lookupField, lookupBy, decodeInt_num]

theorem decodeField_omitemptyStruct_self (k : String) (j : Json)
    (dec : Json → Except GoError α) (z : α) :
    decodeField (omitemptyStruct k j) k dec z = dec j := by
  simp [omitemptyStruct, decodeField, lookupField, lookupBy]

theorem decodeField_plainField_self (k : String) (j : Json)
    (dec : Json → Except GoError α) (z : α) :
    decodeField (plainField k j) k dec z = dec j := by
  simp [plainField, decodeField, lookupField, lookupBy]

theorem decodeField_omitemptyArr_self (k : String) (enc : α → Json)
    (dec : Json → Except GoError α) (h : ∀ x, dec (enc x) = .ok x)
    (xs : List α) :
    decodeField (omitemptyArr k (xs.map enc)) k (decodeList dec) [] =
      .ok xs := by
  cases xs with
  | nil => rfl
  | cons x rest =>
    rw [List.map_cons]
    have hseg : omitemptyArr k (enc x :: rest.map enc) =
        [(k, Json.arr (enc x :: rest.map enc))] := rfl
    rw [hseg]
    simp [decodeField, lookupField, lookupBy,
      decodeList_roundtrip_cons enc dec h]

theorem decodeField_ptrField_self (k : String) (enc : α → Json)
    (dec : Json → Except GoError α) (h : ∀ x, dec (enc x) = .ok x)
    (hobj : ∀ x, ∃ kvs, enc x = Json.obj kvs) (v : Option α) :
    decodeField (ptrField k enc v) k (decodePtr dec) none = .ok v := by
  simp [ptrField, decodeField, lookupField, lookupBy,
    decodePtr_roundtrip enc dec h hobj]

/-- Round trip for `Runner`. -/
theorem decode_marshal_runner (r : Runner) :
    decodeRunner r.marshal = .ok r := by
  rcases r with ⟨sid, hc, st, af, lpt, tm, rd, sp, ex, os, ms⟩
  have free1 : segFoldFree
      (omitemptyFloat "handicap" hc ++ (omitemptyStr "status" st ++ (omitemptyFloat "adjustmentFactor" af ++ (omitemptyFloat "lastPriceTraded" lpt ++ (omitemptyFloat "totalMatched" tm ++ (omitemptyStruct "removalDate" (GoTime.marshal rd) ++ (omitemptyStruct "sp" (StartingPrices.marshal sp) ++ (omitemptyStruct "ex" (ExchangePrices.marshal ex) ++ (omitemptyArr "orders" (List.map Order.marshal os) ++ omitemptyArr "matches" (List.map Match.marshal ms))))))))))
      "selectionId" :=
    segFoldFree_append (segFoldFree_omitemptyFloat (by decide))
      (segFoldFree_append (segFoldFree_omitemptyStr (by decide))
      (segFoldFree_append (segFoldFree_omitemptyFloat (by decide))
      (segFoldFree_append (segFoldFree_omitemptyFloat (by decide))
      (segFoldFree_append (segFoldFree_omitemptyFloat (by decide))
      (segFoldFree_append (segFoldFree_omitemptyStruct (by decide))
      (segFoldFree_append (segFoldFree_omitemptyStruct (by decide))
      (segFoldFree_append (segFoldFree_omitemptyStruct (by decide))
      (segFoldFree_append (segFoldFree_omitemptyArr (by decide))
      (segFoldFree_omitemptyArr (by decide))))))))))
  have free2 : segFoldFree
      (omitemptyStr "status" st ++ (omitemptyFloat "adjustmentFactor" af ++ (omitemptyFloat "lastPriceTraded" lpt ++ (omitemptyFloat "totalMatched" tm ++ (omitemptyStruct "removalDate" (GoTime.marshal rd) ++ (omitemptyStruct "sp" (StartingPrices.marshal sp) ++ (omitemptyStruct "ex" (ExchangePrices.marshal ex) ++ (omitemptyArr "orders" (List.map Order.marshal os) ++ omitemptyArr "matches" (List.map Match.marshal ms)))))))))
      "handicap" :=
    segFoldFree_append (segFoldFree_omitemptyStr (by decide))
      (segFoldFree_append (segFoldFree_omitemptyFloat (by decide))
      (segFoldFree_append (segFoldFree_omitemptyFloat (by decide))
      (segFoldFree_append (segFoldFree_omitemptyFloat (by decide))
      (segFoldFree_append (segFoldFree_omitemptyStruct (by decide))
      (segFoldFree_append (segFoldFree_omitemptyStruct (by decide))
      (segFoldFree_append (segFoldFree_omitemptyStruct (by decide))
      (segFoldFree_append (segFoldFree_omitemptyArr (by decide))
      (segFoldFree_omitemptyArr (by decide)))))))))
  have free3 : segFoldFree
      (omitemptyFloat "adjustmentFactor" af ++ (omitemptyFloat "lastPriceTraded" lpt ++ (omitemptyFloat "totalMatched" tm ++ (omitemptyStruct "removalDate" (GoTime.marshal rd) ++ (omitemptyStruct "sp" (StartingPrices.marshal sp) ++ (omitemptyStruct "ex" (ExchangePrices.marshal ex) ++ (omitemptyArr "orders" (List.map Order.marshal os) ++ omitemptyArr "matches" (List.map Match.marshal ms))))))))
      "status" :=
    segFoldFree_append (segFoldFree_omitemptyFloat (by decide))
      (segFoldFree_append (segFoldFree_omitemptyFloat (by decide))
      (segFoldFree_append (segFoldFree_omitemptyFloat (by decide))
      (segFoldFree_append (segFoldFree_omitemptyStruct (by decide))
      (segFoldFree_append (segFoldFree_omitemptyStruct (by decide))
      (segFoldFree_append (segFoldFree_omitemptyStruct (by decide))
      (segFoldFree_append (segFoldFree_omitemptyArr (by decide))
      (segFoldFree_omitemptyArr (by decide))))))))
  have free4 : segFoldFree
      (omitemptyFloat "lastPriceTraded" lpt ++ (omitemptyFloat "totalMatched" tm ++ (omitemptyStruct "removalDate" (GoTime.marshal rd) ++ (omitemptyStruct "sp" (StartingPrices.marshal sp) ++ (omitemptyStruct "ex" (ExchangePrices.marshal ex) ++ (omitemptyArr "orders" (List.map Order.marshal os) ++ omitemptyArr "matches" (List.map Match.marshal ms)))))))
      "adjustmentFactor" :=
    segFoldFree_append (segFoldFree_omitemptyFloat (by decide))
      (segFoldFree_append (segFoldFree_omitemptyFloat (by decide))
      (segFoldFree_append (segFoldFree_omitemptyStruct (by decide))
      (segFoldFree_append (segFoldFree_omitemptyStruct (by decide))
      (segFoldFree_append (segFoldFree_omitemptyStruct (by decide))
      (segFoldFree_append (segFoldFree_omitemptyArr (by decide))
      (segFoldFree_omitemptyArr (by decide)))))))
  have free5 : segFoldFree
      (omitemptyFloat "totalMatched" tm ++ (omitemptyStruct "removalDate" (GoTime.marshal rd) ++ (omitemptyStruct "sp" (StartingPrices.marshal sp) ++ (omitemptyStruct "ex" (ExchangePrices.marshal ex) ++ (omitemptyArr "orders" (List.map Order.marshal os) ++ omitemptyArr "matches" (List.map Match.marshal ms))))))
      "lastPriceTraded" :=
    segFoldFree_append (segFoldFree_omitemptyFloat (by decide))
      (segFoldFree_append (segFoldFree_omitemptyStruct (by decide))
      (segFoldFree_append (segFoldFree_omitemptyStruct (by decide))
      (segFoldFree_append (segFoldFree_omitemptyStruct (by decide))
      (segFoldFree_append (segFoldFree_omitemptyArr (by decide))
      (segFoldFree_omitemptyArr (by decide))))))
  have free6 : segFoldFree
      (omitemptyStruct "removalDate" (GoTime.marshal rd) ++ (omitemptyStruct "sp" (StartingPrices.marshal sp) ++ (omitemptyStruct "ex" (ExchangePrices.marshal ex) ++ (omitemptyArr "orders" (List.map Order.marshal os) ++ omitemptyArr "matches" (List.map Match.marshal ms)))))
      "totalMatched" :=
    segFoldFree_append (segFoldFree_omitemptyStruct (by decide))
      (segFoldFree_append (segFoldFree_omitemptyStruct (by decide))
      (segFoldFree_append (segFoldFree_omitemptyStruct (by decide))
      (segFoldFree_append (segFoldFree_omitemptyArr (by decide))
      (segFoldFree_omitemptyArr (by decide)))))
  have free7 : segFoldFree
      (omitemptyStruct "sp" (StartingPrices.marshal sp) ++ (omitemptyStruct "ex" (ExchangePrices.marshal ex) ++ (omitemptyArr "orders" (List.map Order.marshal os) ++ omitemptyArr "matches" (List.map Match.marshal ms))))
      "removalDate" :=
    segFoldFree_append (segFoldFree_omitemptyStruct (by decide))
      (segFoldFree_append (segFoldFree_omitemptyStruct (by decide))
      (segFoldFree_append (segFoldFree_omitemptyArr (by decide))
      (segFoldFree_omitemptyArr (by decide))))
  have free8 : segFoldFree
      (omitemptyStruct "ex" (ExchangePrices.marshal ex) ++ (omitemptyArr "orders" (List.map Order.marshal os) ++ omitemptyArr "matches" (List.map Match.marshal ms)))
      "sp" :=
    segFoldFree_append (segFoldFree_omitemptyStruct (by decide))
      (segFoldFree_append (segFoldFree_omitemptyArr (by decide))
      (segFoldFree_omitemptyArr (by decide)))
  have free9 : segFoldFree
      (omitemptyArr "orders" (List.map Order.marshal os) ++ omitemptyArr "matches" (List.map Match.marshal ms))
      "ex" :=
    segFoldFree_append (segFoldFree_omitemptyArr (by decide))
      (segFoldFree_omitemptyArr (by decide))
  have free10 : segFoldFree
      (omitemptyArr "matches" (List.map Match.marshal ms))
      "orders" :=
    segFoldFree_omitemptyArr (by decide)
  simp +decide [Runner.marshal, decodeRunner, decodeField_skip,
    decodeField_last, segFoldFree_omitemptyStr, segFoldFree_omitemptyArr,
    segFoldFree_omitemptyFloat, segFoldFree_omitemptyUInt,
    segFoldFree_omitemptyStruct, free1, free2, free3, free4, free5, free6,
    free7, free8, free9, free10,
    decodeField_omitemptyStr_self, decodeField_omitemptyFloat_self,
    decodeField_omitemptyUInt_self, decodeField_omitemptyStruct_self,
    decodeTime_marshal, exceptBindOk,
    decode_marshal_startingPrices, decode_marshal_exchangePrices,
    decodeField_omitemptyArr_self _ _ _ decode_marshal_order,
    decodeField_omitemptyArr_self _ _ _ decode_marshal_match]

/-- Round trip for `MarketBook`. -/
theorem decode_marshal_marketBook (b : MarketBook) :
    decodeMarketBook b.marshal = .ok b := by
  cases b
  simp +decide [MarketBook.marshal, decodeMarketBook, plainField,
    GoTime.marshal, decodeField, lookupField, lookupBy, decodeString,
    decodeTime, decodeFloat, decodeBool, decodeInt_num, exceptBindOk,
    decodeList_roundtrip _ _ decode_marshal_runner]

/-- Round trip for `MarketCatalogue`. -/
theorem decode_marshal_marketCatalogue (c : MarketCatalogue) :
    decodeMarketCatalogue c.marshal = .ok c := by
  cases c
  simp +decide [MarketCatalogue.marshal, decodeMarketCatalogue, plainField,
    ptrField, GoTime.marshal, decodeField, lookupField, lookupBy,
    decodeString, decodeTime, decodeFloat, exceptBindOk,
    decodeList_roundtrip _ _ decode_marshal_runnerCatalog,
    decodePtr_roundtrip _ _ decode_marshal_marketDescription fun x => ⟨_, rfl⟩,
    decodePtr_roundtrip _ _ decode_marshal_eventType fun x => ⟨_, rfl⟩,
    decodePtr_roundtrip _ _ decode_marshal_competition fun x => ⟨_, rfl⟩,
    decodePtr_roundtrip _ _ decode_marshal_event fun x => ⟨_, rfl⟩]

/-! ### Key-list lemmas: which keys `json.Marshal` emits -/

theorem keys_omitemptyStr (k v : String) :
    (omitemptyStr k v).map Prod.fst = if v = "" then [] else [k] := by
  by_cases h : v = "" <;> simp [omitemptyStr, h]

theorem keys_omitemptyArr_map [DecidableEq α] (k : String) (f : α → Json)
    (xs : List α) :
    (omitemptyArr k (xs.map f)).map Prod.fst =
      if xs = [] then [] else [k] := by
  cases xs <;> simp [omitemptyArr]

theorem keys_omitemptyInt (k : String) (v : Int) :
    (omitemptyInt k v).map Prod.fst = if v = 0 then [] else [k] := by
  by_cases h : v = 0 <;> simp [omitemptyInt, h]

theorem keys_omitemptyFloat (k : String) (v : Rat) :
    (omitemptyFloat k v).map Prod.fst = if v = 0 then [] else [k] := by
  by_cases h : v = 0 <;> simp [omitemptyFloat, h]

theorem keys_omitemptyUInt (k : String) (v : Nat) :
    (omitemptyUInt k v).map Prod.fst = if v = 0 then [] else [k] := by
  by_cases h : v = 0 <;> simp [omitemptyUInt, h]

theorem keys_omitemptyPtr (k : String) (enc : α → Json) (v : Option α) :
    (omitemptyPtr k enc v).map Prod.fst =
      if v.isSome then [k] else [] := by
  cases v <;> rfl

theorem keys_omitemptyStruct (k : String) (j : Json) :
    (omitemptyStruct k j).map Prod.fst = [k] := rfl

theorem keys_plainField (k : String) (j : Json) :
    (plainField k j).map Prod.fst = [k] := rfl

theorem keys_ptrField (k : String) (enc : α → Json) (v : Option α) :
    (ptrField k enc v).map Prod.fst = [k] := rfl

/-- The exact key list `json.Marshal` produces for a `Params` value. -/
theorem params_marshal_keys (p : Params) :
    (Params.marshal p).keys =
      (if p.MarketFilter.isSome then ["filter"] else [])
        ++ (if p.MarketIds = [] then [] else ["marketIds"])
        ++ (if p.PriceProjection.isSome then ["priceProjection"] else [])
        ++ (if p.MarketProjection = [] then [] else ["marketProjection"])
        ++ (if p.OrderProjection = "" then [] else ["orderProjection"])
        ++ (if p.MatchProjection = "" then [] else ["matchProjection"])
        ++ (if p.MaxResults = 0 then [] else ["maxResults"])
        ++ (if p.Locale = "" then [] else ["locale"]) := by
  simp only [Params.marshal, Json.keys, List.map_append, keys_omitemptyPtr,
    keys_omitemptyArr_map, keys_omitemptyStr, keys_omitemptyInt,
    List.append_assoc]

/-- The exact key list `json.Marshal` produces for a `MarketFilter`. -/
theorem marketFilter_marshal_keys (f : MarketFilter) :
    (MarketFilter.marshal f).keys =
      (if f.TextQuery = "" then [] else ["textQuery"])
        ++ (if f.ExchangeIds = [] then [] else ["exchangeIds"])
        ++ (if f.EventTypeIds = [] then [] else ["eventTypeIds"])
        ++ (if f.EventIds = [] then [] else ["eventIds"])
        ++ (if f.CompetitionIds = [] then [] else ["competitionIds"])
        ++ (if f.MarketCountries = [] then [] else ["marketCountries"])
        ++ (if f.MarketIds = [] then [] else ["marketIds"])
        ++ (if f.MarketTypeCodes = [] then [] else ["marketTypeCodes"]) := by
  simp only [MarketFilter.marshal, Json.keys, List.map_append,
    keys_omitemptyArr_map, keys_omitemptyStr, List.append_assoc]

/-- The exact key list `json.Marshal` produces for a `PriceProjection`. -/
theorem priceProjection_marshal_keys (p : PriceProjection) :
    (PriceProjection.marshal p).keys =
      if p.PriceData = [] then [] else ["priceData"] := by
  simp only [PriceProjection.marshal, Json.keys, keys_omitemptyArr_map]

/-- The exact key list `json.Marshal` produces for a `Runner`: the three
struct-typed fields survive their `omitempty` tags. -/
theorem runner_marshal_keys (r : Runner) :
    (Runner.marshal r).keys =
      (if r.SelectionID = 0 then [] else ["selectionId"])
        ++ (if r.Handicap = 0 then [] else ["handicap"])
        ++ (if r.Status = "" then [] else ["status"])
        ++ (if r.AdjustmentFactor = 0 then [] else ["adjustmentFactor"])
        ++ (if r.LastPriceTraded = 0 then [] else ["lastPriceTraded"])
        ++ (if r.TotalMatched = 0 then [] else ["totalMatched"])
        ++ ["removalDate"] ++ ["sp"] ++ ["ex"]
        ++ (if r.Orders = [] then [] else ["orders"])
        ++ (if r.Matches = [] then [] else ["matches"]) := by
  simp only [Runner.marshal, Json.keys, List.map_append, keys_omitemptyUInt,
    keys_omitemptyFloat, keys_omitemptyStr, keys_omitemptyStruct,
    keys_omitemptyArr_map, List.append_assoc]

/-- The exact key list `json.Marshal` produces for a `Match`: `matchDate`
survives its `omitempty` tag, and `price`, `side`, `size` have none. -/
theorem match_marshal_keys (m : Match) :
    (Match.marshal m).keys =
      (if m.BetID = "" then [] else ["betId"])
        ++ ["matchDate"]
        ++ (if m.MatchID = "" then [] else ["matchId"])
        ++ ["price"] ++ ["side"] ++ ["size"] := by
  simp only [Match.marshal, Json.keys, List.map_append, keys_omitemptyStr,
    keys_omitemptyStruct, keys_plainField, List.append_assoc]

/-! ### Claim theorems -/

/-- C1: serializing a `Params` value produces a JSON object whose keys,
for the fields that are set, are exactly the wire names `filter`,
`marketIds`, `priceProjection`, `marketProjection`, `orderProjection`,
`matchProjection`, `maxResults` and `locale`, in that order, and no
other spellings. -/
theorem c1_params_wire_field_names (p : Params) :
    (Params.marshal p).keys =
      (if p.MarketFilter.isSome then ["filter"] else [])
        ++ (if p.MarketIds = [] then [] else ["marketIds"])
        ++ (if p.PriceProjection.isSome then ["priceProjection"] else [])
        ++ (if p.MarketProjection = [] then [] else ["marketProjection"])
        ++ (if p.OrderProjection = "" then [] else ["orderProjection"])
        ++ (if p.MatchProjection = "" then [] else ["matchProjection"])
        ++ (if p.MaxResults = 0 then [] else ["maxResults"])
        ++ (if p.Locale = "" then [] else ["locale"]) :=
  params_marshal_keys p

/-- C1 witness: on a fully populated `Params` every wire name appears. -/
theorem c1_params_wire_field_names_witness :
    (Params.marshal
        { MarketFilter := some {}, MarketIds := ["1.23"],
          PriceProjection := some {}, MarketProjection := ["COMPETITION"],
          OrderProjection := "ALL", MatchProjection := "NO_ROLLUP",
          MaxResults := 10, Locale := "en" }).keys =
      ["filter", "marketIds", "priceProjection", "marketProjection",
        "orderProjection", "matchProjection", "maxResults", "locale"] := by
  rw [c1_params_wire_field_names]
  simp

/-- C2 counterexample: the all-zero `Runner` and the all-zero `Match`
still marshal with keys (`removalDate`, `sp`, `ex`, resp. `matchDate`,
`price`, `side`, `size`), so it is not the case that every field left at
its zero value is absent from the output. -/
theorem c2_zero_fields_counterexample :
    (Runner.marshal {}).keys = ["removalDate", "sp", "ex"] ∧
    (Runner.marshal {}).keys ≠ [] ∧
    (Match.marshal {}).keys = ["matchDate", "price", "side", "size"] ∧
    (Match.marshal {}).keys ≠ [] := by
  refine ⟨?_, ?_, ?_, ?_⟩ <;> simp [runner_marshal_keys, match_marshal_keys]

/-- C2 amended: for `Params`, `MarketFilter` and `PriceProjection` every
field left at its zero value is absent from the marshalled output; for
`Runner` and `Match` the same holds for every field except the
struct-typed ones (`removalDate`, `sp`, `ex`; `matchDate`), which Go's
`omitempty` never omits, and `Match`'s untagged `price`, `side`, `size`,
which are always emitted. -/
theorem c2_omitempty_amended (p : Params) (f : MarketFilter)
    (pp : PriceProjection) (r : Runner) (m : Match) :
    (Params.marshal p).keys =
      (if p.MarketFilter.isSome then ["filter"] else [])
        ++ (if p.MarketIds = [] then [] else ["marketIds"])
        ++ (if p.PriceProjection.isSome then ["priceProjection"] else [])
        ++ (if p.MarketProjection = [] then [] else ["marketProjection"])
        ++ (if p.OrderProjection = "" then [] else ["orderProjection"])
        ++ (if p.MatchProjection = "" then [] else ["matchProjection"])
        ++ (if p.MaxResults = 0 then [] else ["maxResults"])
        ++ (if p.Locale = "" then [] else ["locale"]) ∧
    (MarketFilter.marshal f).keys =
      (if f.TextQuery = "" then [] else ["textQuery"])
        ++ (if f.ExchangeIds = [] then [] else ["exchangeIds"])
        ++ (if f.EventTypeIds = [] then [] else ["eventTypeIds"])
        ++ (if f.EventIds = [] then [] else ["eventIds"])
        ++ (if f.CompetitionIds = [] then [] else ["competitionIds"])
        ++ (if f.MarketCountries = [] then [] else ["marketCountries"])
        ++ (if f.MarketIds = [] then [] else ["marketIds"])
        ++ (if f.MarketTypeCodes = [] then [] else ["marketTypeCodes"]) ∧
    (PriceProjection.marshal pp).keys =
      (if pp.PriceData = [] then [] else ["priceData"]) ∧
    (Runner.marshal r).keys =
      (if r.SelectionID = 0 then [] else ["selectionId"])
        ++ (if r.Handicap = 0 then [] else ["handicap"])
        ++ (if r.Status = "" then [] else ["status"])
        ++ (if r.AdjustmentFactor = 0 then [] else ["adjustmentFactor"])
        ++ (if r.LastPriceTraded = 0 then [] else ["lastPriceTraded"])
        ++ (if r.TotalMatched = 0 then [] else ["totalMatched"])
        ++ ["removalDate"] ++ ["sp"] ++ ["ex"]
        ++ (if r.Orders = [] then [] else ["orders"])
        ++ (if r.Matches = [] then [] else ["matches"]) ∧
    (Match.marshal m).keys =
      (if m.BetID = "" then [] else ["betId"])
        ++ ["matchDate"]
        ++ (if m.MatchID = "" then [] else ["matchId"])
        ++ ["price"] ++ ["side"] ++ ["size"] :=
  ⟨params_marshal_keys p, marketFilter_marshal_keys f,
    priceProjection_marshal_keys pp, runner_marshal_keys r,
    match_marshal_keys m⟩

/-- C3: every enumerated constant serializes as exactly its declared
string literal. -/
theorem c3_enum_constants_serialize_as_literals :
    marshalEnumVal SideBack = Json.str "BACK" ∧
    marshalEnumVal SideLay = Json.str "LAY" ∧
    marshalEnumVal OrderProjectionAll = Json.str "ALL" ∧
    marshalEnumVal OrderProjectionExecutable = Json.str "EXECUTABLE" ∧
    marshalEnumVal OrderProjectionExecutionComplete =
      Json.str "EXECUTION_COMPLETE" ∧
    marshalEnumVal OrderStatusExecutionComplete =
      Json.str "EXECUTION_COMPLETE" ∧
    marshalEnumVal OrderStatusExecutable = Json.str "EXECUTABLE" ∧
    marshalEnumVal MatchProjectionNoRollup = Json.str "NO_ROLLUP" ∧
    marshalEnumVal MatchProjectionRolledUpByPrice =
      Json.str "ROLLED_UP_BY_PRICE" ∧
    marshalEnumVal MatchProjectionRolledUpByAvgPrice =
      Json.str "ROLLED_UP_BY_AVG_PRICE" ∧
    marshalEnumVal MarketProjectionCompetition = Json.str "COMPETITION" ∧
    marshalEnumVal MarketProjectionEvent = Json.str "EVENT" ∧
    marshalEnumVal MarketProjectionEventType = Json.str "EVENT_TYPE" ∧
    marshalEnumVal MarketProjectionMarketStartTime =
      Json.str "MARKET_START_TIME" ∧
    marshalEnumVal MarketProjectionMarketDescription =
      Json.str "MARKET_DESCRIPTION" ∧
    marshalEnumVal MarketProjectionRunnerDescription =
      Json.str "RUNNER_DESCRIPTION" ∧
    marshalEnumVal MarketProjectionRunnerMetadata =
      Json.str "RUNNER_METADATA" ∧
    marshalEnumVal PriceDataSPAvailable = Json.str "SP_AVAILABLE" ∧
    marshalEnumVal PriceDataSPTraded = Json.str "SP_TRADED" ∧
    marshalEnumVal PriceDataEXBestOffers = Json.str "EX_BEST_OFFERS" ∧
    marshalEnumVal PriceDataEXAllOffers = Json.str "EX_ALL_OFFERS" ∧
    marshalEnumVal PriceDataEXTraded = Json.str "EX_TRADED" ∧
    marshalEnumVal RunnerStatusActive = Json.str "ACTIVE" ∧
    marshalEnumVal RunnerStatusWinner = Json.str "WINNER" ∧
    marshalEnumVal RunnerStatusLoser = Json.str "LOSER" ∧
    marshalEnumVal RunnerStatusRemovedVacant = Json.str "REMOVED_VACANT" ∧
    marshalEnumVal RunnerStatusRemoved = Json.str "REMOVED" ∧
    marshalEnumVal RunnerStatusHidden = Json.str "HIDDEN" ∧
    marshalEnumVal PersistenceTypeLapse = Json.str "LAPSE" ∧
    marshalEnumVal PersistenceTypePersist = Json.str "PERSIST" ∧
    marshalEnumVal PersistenceTypeMarketOnClose =
      Json.str "MARKET_ON_CLOSE" ∧
    marshalEnumVal OrderTypeLimit = Json.str "LIMIT" ∧
    marshalEnumVal OrderTypeLimitOnClose = Json.str "LIMIT_ON_CLOSE" ∧
    marshalEnumVal OrderTypeMarketOnClose = Json.str "MARKET_ON_CLOSE" :=
  ⟨rfl, rfl, rfl, rfl, rfl, rfl, rfl, rfl, rfl, rfl, rfl, rfl, rfl, rfl,
    rfl, rfl, rfl, rfl, rfl, rfl, rfl, rfl, rfl, rfl, rfl, rfl, rfl, rfl,
    rfl, rfl, rfl, rfl, rfl, rfl⟩

/-- The request of the current revision's `ListMarketCatalogue`. -/
def listMarketCatalogueRequest (s : Session) (filter : Option MarketFilter)
    (maxResults : Int) (projectionsParam : ProjectionParams) :
    String × Json :=
  bettingRequestPayload s "listMarketCatalogue"
    (listMarketCatalogueParams filter maxResults projectionsParam)

/-- A transport in which the HTTP call itself fails. -/
def failTransport (e : GoError) : Transport := fun _ _ _ _ => .error e

/-- A transport answering every call with the fixed body `raw`. -/
def okTransport (raw : RawDoc) : Transport := fun _ _ _ _ => .ok raw

/-- C4: every public operation delegates to the single shared helper
`doBettingRequest` (wrapped in the `(results, err)` convention by
`runBetting`), and that helper sets the `Locale` field of the parameter
envelope to the session's configured locale before serializing it and
dispatching the call, then decodes the typed response. -/
theorem c4_shared_helper_injects_locale (transport : Transport)
    (s : Session) (f : Option MarketFilter) (mids : List String)
    (pp : ProjectionParams) (mr : Int) :
    ListCompetitions transport s f =
      runBetting transport decodeCompetitionResult s "listCompetitions"
        (listCompetitionsParams f) ∧
    ListCountries transport s f =
      runBetting transport decodeCountryCodeResult s "listCountries"
        (listCountriesParams f) ∧
    ListEvents transport s f =
      runBetting transport decodeEventResult s "listEvents"
        (listEventsParams f) ∧
    ListEventTypes transport s f =
      runBetting transport decodeEventTypeResult s "listEventTypes"
        (listEventTypesParams f) ∧
    ListMarketBook transport s mids pp =
      runBetting transport decodeMarketBook s "listMarketBook"
        (listMarketBookParams mids pp) ∧
    ListMarketCatalogue transport s f mr pp =
      runBetting transport decodeMarketCatalogue s "listMarketCatalogue"
        (listMarketCatalogueParams f mr pp) ∧
    ListMarketTypes transport s f =
      runBetting transport decodeMarketTypeResult s "listMarketTypes"
        (listMarketTypesParams f) ∧
    (∀ p : Params, (injectLocale s p).Locale = s.config.Locale) ∧
    (∀ (α : Type) (dec : Json → Except GoError α) (m : String) (p : Params),
      doBettingRequest transport dec s m p =
        transport s "betting" (m ++ "/") ((injectLocale s p).marshal) >>=
          fun data => parseDoc data >>= dec) :=
  ⟨rfl, rfl, rfl, rfl, rfl, rfl, rfl, fun _ => rfl,
    fun _ _ _ _ => rfl⟩

/-- C5: a transport error, a malformed response body, and a response of
the wrong JSON shape are each returned to the caller as the very error
value produced at the failing step, with the result slice left at its
zero value (nil); there is no retry, recovery, wrapping or
classification. -/
theorem c5_errors_returned_unchanged (e : GoError) (s : Session)
    (f : Option MarketFilter) (mids : List String) (pp : ProjectionParams)
    (mr : Int) :
    (ListCompetitions (failTransport e) s f = ([], some e) ∧
      ListCountries (failTransport e) s f = ([], some e) ∧
      ListEvents (failTransport e) s f = ([], some e) ∧
      ListEventTypes (failTransport e) s f = ([], some e) ∧
      ListMarketBook (failTransport e) s mids pp = ([], some e) ∧
      ListMarketCatalogue (failTransport e) s f mr pp = ([], some e) ∧
      ListMarketTypes (failTransport e) s f = ([], some e)) ∧
    (ListCompetitions (okTransport none) s f = ([], some goSyntaxErr) ∧
      ListCountries (okTransport none) s f = ([], some goSyntaxErr) ∧
      ListEvents (okTransport none) s f = ([], some goSyntaxErr) ∧
      ListEventTypes (okTransport none) s f = ([], some goSyntaxErr) ∧
      ListMarketBook (okTransport none) s mids pp = ([], some goSyntaxErr) ∧
      ListMarketCatalogue (okTransport none) s f mr pp =
        ([], some goSyntaxErr) ∧
      ListMarketTypes (okTransport none) s f = ([], some goSyntaxErr)) ∧
    (ListCompetitions (okTransport (some (Json.obj []))) s f =
        ([], some goTypeErr) ∧
      ListCountries (okTransport (some (Json.obj []))) s f =
        ([], some goTypeErr) ∧
      ListEvents (okTransport (some (Json.obj []))) s f =
        ([], some goTypeErr) ∧
      ListEventTypes (okTransport (some (Json.obj []))) s f =
        ([], some goTypeErr) ∧
      ListMarketBook (okTransport (some (Json.obj []))) s mids pp =
        ([], some goTypeErr) ∧
      ListMarketCatalogue (okTransport (some (Json.obj []))) s f mr pp =
        ([], some goTypeErr) ∧
      ListMarketTypes (okTransport (some (Json.obj []))) s f =
        ([], some goTypeErr)) :=
  ⟨⟨rfl, rfl, rfl, rfl, rfl, rfl, rfl⟩,
    ⟨rfl, rfl, rfl, rfl, rfl, rfl, rfl⟩,
    ⟨rfl, rfl, rfl, rfl, rfl, rfl, rfl⟩⟩

/-- C6: for every result struct type, serializing a value and
deserializing the output yields the original value back. -/
theorem c6_result_struct_roundtrips (a : EventTypeResult)
    (b : CompetitionResult) (c : CountryCodeResult) (d : EventResult)
    (e : MarketBook) (f : MarketCatalogue) (g : MarketTypeResult) :
    decodeEventTypeResult a.marshal = .ok a ∧
    decodeCompetitionResult b.marshal = .ok b ∧
    decodeCountryCodeResult c.marshal = .ok c ∧
    decodeEventResult d.marshal = .ok d ∧
    decodeMarketBook e.marshal = .ok e ∧
    decodeMarketCatalogue f.marshal = .ok f ∧
    decodeMarketTypeResult g.marshal = .ok g :=
  ⟨decode_marshal_eventTypeResult a, decode_marshal_competitionResult b,
    decode_marshal_countryCodeResult c, decode_marshal_eventResult d,
    decode_marshal_marketBook e, decode_marshal_marketCatalogue f,
    decode_marshal_marketTypeResult g⟩

/-- C7: every request builder populates only the envelope fields
corresponding to its own parameters and leaves every other `Params`
field at its zero value. -/
theorem c7_request_builders_frame (f : Option MarketFilter)
    (mids : List String) (pp : ProjectionParams) (mr : Int) :
    listCompetitionsParams f =
      { MarketFilter := f, MarketIds := [], PriceProjection := none,
        MarketProjection := [], OrderProjection := "", MatchProjection := "",
        MaxResults := 0, Locale := "" } ∧
    listCountriesParams f =
      { MarketFilter := f, MarketIds := [], PriceProjection := none,
        MarketProjection := [], OrderProjection := "", MatchProjection := "",
        MaxResults := 0, Locale := "" } ∧
    listEventsParams f =
      { MarketFilter := f, MarketIds := [], PriceProjection := none,
        MarketProjection := [], OrderProjection := "", MatchProjection := "",
        MaxResults := 0, Locale := "" } ∧
    listEventTypesParams f =
      { MarketFilter := f, MarketIds := [], PriceProjection := none,
        MarketProjection := [], OrderProjection := "", MatchProjection := "",
        MaxResults := 0, Locale := "" } ∧
    listMarketTypesParams f =
      { MarketFilter := f, MarketIds := [], PriceProjection := none,
        MarketProjection := [], OrderProjection := "", MatchProjection := "",
        MaxResults := 0, Locale := "" } ∧
    listMarketBookParams mids pp =
      { MarketFilter := none, MarketIds := mids,
        PriceProjection := pp.PriceProjection,
        MarketProjection := pp.MarketProjection,
        OrderProjection := pp.OrderProjection,
        MatchProjection := pp.MatchProjection,
        MaxResults := 0, Locale := "" } ∧
    listMarketCatalogueParams f mr pp =
      { MarketFilter := f, MarketIds := [],
        PriceProjection := pp.PriceProjection,
        MarketProjection := pp.MarketProjection,
        OrderProjection := pp.OrderProjection,
        MatchProjection := pp.MatchProjection,
        MaxResults := mr, Locale := "" } :=
  ⟨rfl, rfl, rfl, rfl, rfl, rfl, rfl⟩

/-- C8: `SetProjections` copies exactly the four projection fields from
the given `ProjectionParams` and leaves the receiver's other fields
unchanged. -/
theorem c8_setProjections_frame (p : Params) (pp : ProjectionParams) :
    (p.SetProjections pp).PriceProjection = pp.PriceProjection ∧
    (p.SetProjections pp).MarketProjection = pp.MarketProjection ∧
    (p.SetProjections pp).OrderProjection = pp.OrderProjection ∧
    (p.SetProjections pp).MatchProjection = pp.MatchProjection ∧
    (p.SetProjections pp).MarketFilter = p.MarketFilter ∧
    (p.SetProjections pp).MarketIds = p.MarketIds ∧
    (p.SetProjections pp).MaxResults = p.MaxResults ∧
    (p.SetProjections pp).Locale = p.Locale :=
  ⟨rfl, rfl, rfl, rfl, rfl, rfl, rfl, rfl⟩

/-- C9: a `ListMarketCatalogue` call with `maxResults = 0` produces a
payload with no `maxResults` key, and a session whose configured locale
is the empty string produces a payload with no `locale` key. -/
theorem c9_zero_values_absent_from_wire (s : Session)
    (f : Option MarketFilter) (pp : ProjectionParams) (mr : Int) :
    "maxResults" ∉ (listMarketCatalogueRequest s f 0 pp).2.keys ∧
    (s.config.Locale = "" →
      "locale" ∉ (listMarketCatalogueRequest s f mr pp).2.keys) := by
  have hkeys : ∀ mr' : Int,
      (listMarketCatalogueRequest s f mr' pp).2.keys =
        (if f.isSome then ["filter"] else [])
          ++ (if pp.PriceProjection.isSome then ["priceProjection"] else [])
          ++ (if pp.MarketProjection = [] then [] else ["marketProjection"])
          ++ (if pp.OrderProjection = "" then [] else ["orderProjection"])
          ++ (if pp.MatchProjection = "" then [] else ["matchProjection"])
          ++ (if mr' = 0 then [] else ["maxResults"])
          ++ (if s.config.Locale = "" then [] else ["locale"]) := by
    intro mr'
    show (Params.marshal _).keys = _
    rw [params_marshal_keys]
    simp [injectLocale, listMarketCatalogueParams, Params.SetProjections]
  constructor
  · rw [hkeys 0]
    rcases f <;> rcases pp with ⟨mp, ppp, op, matp⟩ <;> rcases ppp <;>
      rcases mp <;> by_cases h1 : op = "" <;> by_cases h2 : matp = "" <;>
        by_cases h3 : s.config.Locale = "" <;>
          simp_all
  · intro hloc
    rw [hkeys mr]
    rcases f <;> rcases pp with ⟨mp, ppp, op, matp⟩ <;> rcases ppp <;>
      rcases mp <;> by_cases h1 : op = "" <;> by_cases h2 : matp = "" <;>
        by_cases h3 : mr = 0 <;>
          simp_all

/-- C9 witness: at a concrete session with empty locale and concrete
arguments, neither key occurs. -/
theorem c9_zero_values_absent_from_wire_witness :
    ("maxResults" ∉
        (listMarketCatalogueRequest ⟨⟨""⟩⟩ none 0 {}).2.keys) ∧
    ("locale" ∉
        (listMarketCatalogueRequest ⟨⟨""⟩⟩ none 7 {}).2.keys) := by
  obtain ⟨h1, h2⟩ :=
    c9_zero_values_absent_from_wire ⟨⟨""⟩⟩ none {} 7
  exact ⟨h1, h2 rfl⟩

/-- C10: for the five filter-only operations, the earlier revision and
the current revision build the same request: same method name and the
same serialized JSON body, for every session and filter. -/
theorem c10_old_new_requests_equal (s : Session)
    (f : Option MarketFilter) :
    oldListCompetitionsRequest s f = listCompetitionsRequest s f ∧
    oldListCountriesRequest s f = listCountriesRequest s f ∧
    oldListEventsRequest s f = listEventsRequest s f ∧
    oldListEventTypesRequest s f = listEventTypesRequest s f ∧
    oldListMarketTypesRequest s f = listMarketTypesRequest s f :=
  ⟨rfl, rfl, rfl, rfl, rfl⟩

end Betfair
